import Mathlib

/-!
# Status handlers of `api4/status.go`

A shallow embedding of the six HTTP handlers of `api4/status.go`
(`getUserStatus`, `getUserStatusesByIds`, `updateUserStatus`,
`updateUserCustomStatus`, `removeUserCustomStatus`,
`removeUserRecentCustomStatus`).

The handlers are stateful: they read and write the application layer behind
`c.App`, set `c.Err` and write to the response writer `w`.  They are embedded
as functions on an execution record `Exec σ` that carries the context `c`, the
application state (of an arbitrary type `σ`), the list of `c.App` calls made so
far, in order (configuration reads are not recorded), and what was written to
`w`.  The packages `app`, `web` and
`model` are not part of the sources; what the handlers use of them is taken as
a parameter (`App σ`, `Env σ`, `Request`).
-/

set_option linter.dupNamespace false

namespace Api4

/-! ## Data of package `model` used by the handlers -/

/-- The `model.Status` record, with the fields the handlers read. -/
structure Status where
  UserId : String
  Status : String
  DNDEndTime : Int
  LastActivityAt : Int
  deriving DecidableEq

/-- The `model.CustomStatus` record. -/
structure CustomStatus where
  Emoji : String
  Text : String
  Duration : String
  ExpiresAt : Int
  deriving DecidableEq

/-- The `*model.AppError` value: where it was raised, its message id and its HTTP status code. -/
structure AppError where
  Where : String
  Id : String
  StatusCode : Nat
  deriving DecidableEq

/-- The `model.NewAppError(where, id, nil, "", status)` constructor call. -/
def NewAppError (wh id : String) (status : Nat) : AppError :=
  { Where := wh, Id := id, StatusCode := status }

/-- The `*model.Permission` value. -/
structure Permission where
  Id : String
  deriving DecidableEq

/-- Modelled from the spec: the constant `model.PermissionEditOtherUsers` is declared in package
`model`, which is not among the sources; it is the permission the handlers name when the
"may this actor modify this target user" decision is negative. -/
def PermissionEditOtherUsers : Permission := { Id := "edit_other_users" }

/-- Modelled from the spec: the constant `model.StatusOutOfOffice` is declared in package `model`,
which is not among the sources; it is the literal of the OutOfOffice presence value, distinct from
the four literals a caller may request. -/
def StatusOutOfOffice : String := "ooo"

/-- The constant `http.StatusNotFound`. -/
def StatusNotFound : Nat := 404

/-- The constant `http.StatusNotImplemented`. -/
def StatusNotImplemented : Nat := 501

/-- The session of the caller, `*c.AppContext.Session()`. -/
structure Session where
  UserId : String
  Roles : String
  deriving DecidableEq

/-- The part of `model.Config` the handlers read: `FeatureFlags.TimedDND` and
`*TeamSettings.EnableCustomUserStatuses`. -/
structure Config where
  TimedDND : Bool
  EnableCustomUserStatuses : Bool
  deriving DecidableEq

/-! ## The context, the request and the response -/

/-- The value of `c.Err`.  `SetInvalidUrlParam`, `SetInvalidParam` and `SetPermissionError` are
methods of the web context (not among the sources) that store an error built from their argument;
`appError` is an `*model.AppError` assigned to `c.Err` directly. -/
inductive Err where
  | invalidUrlParam (parameter : String)
  | invalidParam (parameter : String)
  | permissionError (permission : Permission)
  | appError (e : AppError)
  deriving DecidableEq

/-- The `c.Params` record. -/
structure Params where
  UserId : String
  deriving DecidableEq

/-- The `*Context` value `c`. -/
structure Context where
  Params : Params
  Session : Session
  Err : Option Err
  deriving DecidableEq

/-- The method `c.SetInvalidParam(parameter)`. -/
def Context.SetInvalidParam (c : Context) (parameter : String) : Context :=
  { c with Err := some (Err.invalidParam parameter) }

/-- The method `c.SetPermissionError(permission)`. -/
def Context.SetPermissionError (c : Context) (permission : Permission) : Context :=
  { c with Err := some (Err.permissionError permission) }

/-- The request `r`, seen through the decoders of package `model` (not among the sources): each
field is what the decoder of that name returns on `r.Body`.  `StatusFromJson` and
`CustomStatusFromJson` return `nil` (here `none`) on a body they cannot decode. -/
structure Request where
  StatusFromJson : Option Status
  ArrayFromJson : List String
  CustomStatusFromJson : Option CustomStatus
  deriving DecidableEq

/-- What a handler wrote to the response writer `w`: one encoded status
(`json.NewEncoder(w).Encode(statusMap[0])`), an encoded status list
(`w.Write(model.StatusListToJson(statusMap))`) or the OK body (`ReturnStatusOK(w)`). -/
inductive Written where
  | status (s : Status)
  | statusList (l : List Status)
  | ok
  deriving DecidableEq

/-! ## The application layer `c.App` -/

/-- A call of a method of `c.App`, with its arguments.  The configuration read `c.App.Config()`
is not recorded: it has no constructor here. -/
inductive Call where
  | SessionHasPermissionToUser (session : Session) (userId : String)
  | GetStatus (userId : String)
  | DisableAutoResponder (userId : String) (asAdmin : Bool)
  | SetStatusOnline (userId : String) (manual : Bool)
  | SetStatusOffline (userId : String) (manual : Bool)
  | SetStatusAwayIfNeeded (userId : String) (manual : Bool)
  | SetStatusDoNotDisturbTimed (userId : String) (endtime : Int)
  | SetStatusDoNotDisturb (userId : String)
  | GetUserStatusesByIds (userIds : List String)
  | SetCustomStatus (userId : String) (cs : CustomStatus)
  | RemoveCustomStatus (userId : String)
  | RemoveRecentCustomStatus (userId : String) (cs : CustomStatus)
  deriving DecidableEq

/-- The call is `DisableAutoResponder`. -/
def Call.isDisable : Call → Bool
  | .DisableAutoResponder _ _ => true
  | _ => false

/-- The call is one of the five `SetStatus*` operations. -/
def Call.isSetStatus : Call → Bool
  | .SetStatusOnline _ _ => true
  | .SetStatusOffline _ _ => true
  | .SetStatusAwayIfNeeded _ _ => true
  | .SetStatusDoNotDisturbTimed _ _ => true
  | .SetStatusDoNotDisturb _ => true
  | _ => false

/-- The call is one that writes: everything but the permission decision and the two lookups. -/
def Call.isMutation : Call → Bool
  | .SessionHasPermissionToUser _ _ => false
  | .GetStatus _ => false
  | .GetUserStatusesByIds _ => false
  | _ => true

/-- The methods of `c.App` the handlers call, over an application state `σ`.  Package `app` is not
among the sources, so every method is a parameter.  The permission decision, `Config` and the two
lookups read the state; the other methods return the new state, together with their `*AppError`
result where they have one. -/
structure App (σ : Type) where
  Config : σ → Config
  SessionHasPermissionToUser : σ → Session → String → Bool
  GetStatus : σ → String → Except AppError Status
  GetUserStatusesByIds : σ → List String → Except AppError (List Status)
  DisableAutoResponder : σ → String → Bool → σ × Option AppError
  SetStatusOnline : σ → String → Bool → σ
  SetStatusOffline : σ → String → Bool → σ
  SetStatusAwayIfNeeded : σ → String → Bool → σ
  SetStatusDoNotDisturbTimed : σ → String → Int → σ
  SetStatusDoNotDisturb : σ → String → σ
  SetCustomStatus : σ → String → CustomStatus → σ × Option AppError
  RemoveCustomStatus : σ → String → σ × Option AppError
  RemoveRecentCustomStatus : σ → String → CustomStatus → σ × Option AppError

/-- Everything outside `status.go` a handler depends on: the application layer, the two methods of
the web context that are not plain setters (`c.RequireUserId()`, which may set `c.Err` and rewrite
`c.Params.UserId`, and `c.IsSystemAdmin()`), and the two methods of `model.CustomStatus`
(`AreDurationAndExpirationTimeValid`, which reads the clock, and `PreSave`). -/
structure Env (σ : Type) where
  App : App σ
  RequireUserId : Context → Context
  IsSystemAdmin : σ → Context → Bool
  AreDurationAndExpirationTimeValid : CustomStatus → Bool
  PreSave : CustomStatus → CustomStatus

/-- The state of a handler run: the context `c`, the application state, the `c.App` calls made so
far other than configuration reads (oldest first) and what was written to `w` (oldest first). -/
structure Exec (σ : Type) where
  c : Context
  state : σ
  calls : List Call
  w : List Written

/-- The run of a handler starts with no call made and nothing written. -/
def Exec.start {σ : Type} (c : Context) (s : σ) : Exec σ :=
  { c := c, state := s, calls := [], w := [] }

/-- Go's builtin `len` on a string: its number of bytes. -/
def len (s : String) : Nat := s.utf8ByteSize

/-! ## The handlers -/

/-- The handler `getUserStatus` (status.go, lines 27 to 49). -/
def getUserStatus {σ : Type} (env : Env σ) (x : Exec σ) (_r : Request) : Exec σ :=
  let c := env.RequireUserId x.c
  if c.Err ≠ none then
    { x with c := c }
  else
    -- No permission check required
    let calls := x.calls ++ [Call.GetUserStatusesByIds [c.Params.UserId]]
    match env.App.GetUserStatusesByIds x.state [c.Params.UserId] with
    | .error err => { x with c := { c with Err := some (Err.appError err) }, calls := calls }
    | .ok statusMap =>
      match statusMap with
      | [] =>
        { x with
          c := { c with Err := some (Err.appError
            (NewAppError "UserStatus" "api.status.user_not_found.app_error" StatusNotFound)) },
          calls := calls }
      | st :: _ => { x with c := c, calls := calls, w := x.w ++ [Written.status st] }

/-- The loop of `getUserStatusesByIds` over the ids (status.go, lines 59 to 64): `true` when it
returns early, at the first id whose `len` is not 26. -/
def hasMalformedId : List String → Bool
  | [] => false
  | userId :: rest => if len userId ≠ 26 then true else hasMalformedId rest

/-- The handler `getUserStatusesByIds` (status.go, lines 51 to 75). -/
def getUserStatusesByIds {σ : Type} (env : Env σ) (x : Exec σ) (r : Request) : Exec σ :=
  let userIds := r.ArrayFromJson
  if userIds.length = 0 then
    { x with c := x.c.SetInvalidParam "user_ids" }
  else if hasMalformedId userIds then
    { x with c := x.c.SetInvalidParam "user_ids" }
  else
    -- No permission check required
    let calls := x.calls ++ [Call.GetUserStatusesByIds userIds]
    match env.App.GetUserStatusesByIds x.state userIds with
    | .error err => { x with c := { x.c with Err := some (Err.appError err) }, calls := calls }
    | .ok statusMap => { x with calls := calls, w := x.w ++ [Written.statusList statusMap] }

/-- The read of the current status and the auto-responder step of `updateUserStatus` (status.go,
lines 100 to 103): `DisableAutoResponder` is called when the read succeeds, the current status is
out of office and the requested one is not; what it returns is dropped. -/
def disableAutoResponderStep {σ : Type} (env : Env σ) (c : Context) (status : Status)
    (x : Exec σ) : Exec σ :=
  let x2 : Exec σ := { x with calls := x.calls ++ [Call.GetStatus c.Params.UserId] }
  match env.App.GetStatus x.state c.Params.UserId with
  | .ok currentStatus =>
    if currentStatus.Status = StatusOutOfOffice ∧ status.Status ≠ StatusOutOfOffice then
      { x2 with
        state := (env.App.DisableAutoResponder x2.state c.Params.UserId
                    (env.IsSystemAdmin x2.state c)).1,
        calls := x2.calls ++ [Call.DisableAutoResponder c.Params.UserId
                    (env.IsSystemAdmin x2.state c)] }
    else x2
  | .error _ => x2

/-- The switch of `updateUserStatus` on `status.Status` (status.go, lines 105 to 121): the run
after the `SetStatus*` call of the matching case, or `none` in the default case. -/
def setStatusSwitch {σ : Type} (env : Env σ) (c : Context) (status : Status)
    (x : Exec σ) : Option (Exec σ) :=
  if status.Status = "online" then
    some { x with state := env.App.SetStatusOnline x.state c.Params.UserId true,
                  calls := x.calls ++ [Call.SetStatusOnline c.Params.UserId true] }
  else if status.Status = "offline" then
    some { x with state := env.App.SetStatusOffline x.state c.Params.UserId true,
                  calls := x.calls ++ [Call.SetStatusOffline c.Params.UserId true] }
  else if status.Status = "away" then
    some { x with state := env.App.SetStatusAwayIfNeeded x.state c.Params.UserId true,
                  calls := x.calls ++ [Call.SetStatusAwayIfNeeded c.Params.UserId true] }
  else if status.Status = "dnd" then
    if (env.App.Config x.state).TimedDND then
      some { x with
             state := env.App.SetStatusDoNotDisturbTimed x.state c.Params.UserId status.DNDEndTime,
             calls := x.calls ++ [Call.SetStatusDoNotDisturbTimed c.Params.UserId
                        status.DNDEndTime] }
    else
      some { x with state := env.App.SetStatusDoNotDisturb x.state c.Params.UserId,
                    calls := x.calls ++ [Call.SetStatusDoNotDisturb c.Params.UserId] }
  else
    none

/-- The handler `updateUserStatus` (status.go, lines 77 to 124). -/
def updateUserStatus {σ : Type} (env : Env σ) (x : Exec σ) (r : Request) : Exec σ :=
  let c := env.RequireUserId x.c
  if c.Err ≠ none then
    { x with c := c }
  else
    match r.StatusFromJson with
    | none => { x with c := c.SetInvalidParam "status" }
    | some status =>
      -- The user being updated in the payload must be the same one as indicated in the URL.
      if status.UserId ≠ c.Params.UserId then
        { x with c := c.SetInvalidParam "user_id" }
      else
        let x1 : Exec σ :=
          { x with c := c,
                   calls := x.calls ++ [Call.SessionHasPermissionToUser c.Session c.Params.UserId] }
        if ¬ env.App.SessionHasPermissionToUser x.state c.Session c.Params.UserId then
          { x1 with c := c.SetPermissionError PermissionEditOtherUsers }
        else
          let x3 := disableAutoResponderStep env c status x1
          match setStatusSwitch env c status x3 with
          | some x4 => getUserStatus env x4 r
          | none => { x3 with c := c.SetInvalidParam "status" }

/-- The handler `updateUserCustomStatus` (status.go, lines 126 to 156). -/
def updateUserCustomStatus {σ : Type} (env : Env σ) (x : Exec σ) (r : Request) : Exec σ :=
  let c := env.RequireUserId x.c
  if c.Err ≠ none then
    { x with c := c }
  else if ¬ (env.App.Config x.state).EnableCustomUserStatuses then
    { x with c := { c with Err := some (Err.appError
        (NewAppError "updateUserCustomStatus" "api.custom_status.disabled" StatusNotImplemented)) } }
  else
    match r.CustomStatusFromJson with
    | none => { x with c := c.SetInvalidParam "custom_status" }
    | some customStatus =>
      if (customStatus.Emoji = "" ∧ customStatus.Text = "")
          ∨ ¬ env.AreDurationAndExpirationTimeValid customStatus then
        { x with c := c.SetInvalidParam "custom_status" }
      else
        let x1 : Exec σ :=
          { x with c := c,
                   calls := x.calls ++ [Call.SessionHasPermissionToUser c.Session c.Params.UserId] }
        if ¬ env.App.SessionHasPermissionToUser x.state c.Session c.Params.UserId then
          { x1 with c := c.SetPermissionError PermissionEditOtherUsers }
        else
          let customStatus := env.PreSave customStatus
          let res := env.App.SetCustomStatus x1.state c.Params.UserId customStatus
          let x2 : Exec σ :=
            { x1 with state := res.1,
                      calls := x1.calls ++ [Call.SetCustomStatus c.Params.UserId customStatus] }
          match res.2 with
          | some err => { x2 with c := { c with Err := some (Err.appError err) } }
          | none => { x2 with w := x2.w ++ [Written.ok] }

/-- The handler `removeUserCustomStatus` (status.go, lines 158 to 180). -/
def removeUserCustomStatus {σ : Type} (env : Env σ) (x : Exec σ) (_r : Request) : Exec σ :=
  let c := env.RequireUserId x.c
  if c.Err ≠ none then
    { x with c := c }
  else if ¬ (env.App.Config x.state).EnableCustomUserStatuses then
    { x with c := { c with Err := some (Err.appError
        (NewAppError "removeUserCustomStatus" "api.custom_status.disabled" StatusNotImplemented)) } }
  else
    let x1 : Exec σ :=
      { x with c := c,
               calls := x.calls ++ [Call.SessionHasPermissionToUser c.Session c.Params.UserId] }
    if ¬ env.App.SessionHasPermissionToUser x.state c.Session c.Params.UserId then
      { x1 with c := c.SetPermissionError PermissionEditOtherUsers }
    else
      let res := env.App.RemoveCustomStatus x1.state c.Params.UserId
      let x2 : Exec σ :=
        { x1 with state := res.1, calls := x1.calls ++ [Call.RemoveCustomStatus c.Params.UserId] }
      match res.2 with
      | some err => { x2 with c := { c with Err := some (Err.appError err) } }
      | none => { x2 with w := x2.w ++ [Written.ok] }

/-- The handler `removeUserRecentCustomStatus` (status.go, lines 182 to 210). -/
def removeUserRecentCustomStatus {σ : Type} (env : Env σ) (x : Exec σ) (r : Request) : Exec σ :=
  let c := env.RequireUserId x.c
  if c.Err ≠ none then
    { x with c := c }
  else if ¬ (env.App.Config x.state).EnableCustomUserStatuses then
    { x with c := { c with Err := some (Err.appError
        (NewAppError "removeUserRecentCustomStatus" "api.custom_status.disabled"
          StatusNotImplemented)) } }
  else
    match r.CustomStatusFromJson with
    | none => { x with c := c.SetInvalidParam "recent_custom_status" }
    | some recentCustomStatus =>
      let x1 : Exec σ :=
        { x with c := c,
                 calls := x.calls ++ [Call.SessionHasPermissionToUser c.Session c.Params.UserId] }
      if ¬ env.App.SessionHasPermissionToUser x.state c.Session c.Params.UserId then
        { x1 with c := c.SetPermissionError PermissionEditOtherUsers }
      else
        let res := env.App.RemoveRecentCustomStatus x1.state c.Params.UserId recentCustomStatus
        let x2 : Exec σ :=
          { x1 with
            state := res.1,
            calls := x1.calls ++ [Call.RemoveRecentCustomStatus c.Params.UserId
                        recentCustomStatus] }
        match res.2 with
        | some err => { x2 with c := { c with Err := some (Err.appError err) } }
        | none => { x2 with w := x2.w ++ [Written.ok] }

/-! ## An in-memory application layer

Used to run the handlers on concrete requests. -/

/-- Modelled from the spec: package `app` (the receiver of `c.App`) is not among the sources.  The
state of an in-memory application layer: the PresenceRegistry (one `Status` per observed user), the
users whose automatic reply is active (AutoResponderController), the active custom statuses and the
recent custom-status history (CustomStatusService), the configuration, the permission decision,
and two fault switches for a failing registry read and a failing auto-responder. -/
structure Store where
  config : Config
  statuses : List Status
  autoResponders : List String
  customStatuses : List (String × CustomStatus)
  recentCustomStatuses : List (String × CustomStatus)
  mayModify : Bool
  getStatusFails : Bool
  disableFails : Bool
  deriving DecidableEq

/-- Modelled from the spec: the PresenceRegistry write absent from the sources, which overwrites
the status and the DND end time of the user, registering the user when not yet observed. -/
def Store.setStatus (s : Store) (userId status : String) (dndEndTime : Int) : Store :=
  if s.statuses.any (fun st => st.UserId == userId) then
    { s with statuses := s.statuses.map (fun st =>
        if st.UserId = userId then { st with Status := status, DNDEndTime := dndEndTime } else st) }
  else
    { s with statuses := s.statuses ++
        [{ UserId := userId, Status := status, DNDEndTime := dndEndTime, LastActivityAt := 0 }] }

/-- Modelled from the spec: the application layer absent from the sources, as an in-memory
implementation of the collaborators of section 2: the registry get and set, the auto-responder
disable, and the custom-status set, remove and remove-recent.  By the ownership rule of section 3
(the presence state is owned by the registry and no other component mutates it)
`DisableAutoResponder` switches the automatic reply off and leaves `statuses` as they are. -/
def memApp : App Store where
  Config := fun s => s.config
  SessionHasPermissionToUser := fun s _ _ => s.mayModify
  GetStatus := fun s userId =>
    if s.getStatusFails then
      .error (NewAppError "GetStatus" "app.status.get.app_error" 500)
    else
      match s.statuses.find? (fun st => st.UserId == userId) with
      | some st => .ok st
      | none => .error (NewAppError "GetStatus" "app.status.get.missing.app_error" 404)
  GetUserStatusesByIds := fun s userIds =>
    .ok (userIds.filterMap (fun userId => s.statuses.find? (fun st => st.UserId == userId)))
  DisableAutoResponder := fun s userId _ =>
    if s.disableFails then
      (s, some (NewAppError "DisableAutoResponder" "app.user.update.app_error" 500))
    else
      ({ s with autoResponders := s.autoResponders.filter (fun u => u != userId) }, none)
  SetStatusOnline := fun s userId _ => s.setStatus userId "online" 0
  SetStatusOffline := fun s userId _ => s.setStatus userId "offline" 0
  SetStatusAwayIfNeeded := fun s userId _ => s.setStatus userId "away" 0
  SetStatusDoNotDisturbTimed := fun s userId endtime => s.setStatus userId "dnd" endtime
  SetStatusDoNotDisturb := fun s userId => s.setStatus userId "dnd" 0
  SetCustomStatus := fun s userId cs =>
    ({ s with customStatuses :=
        s.customStatuses.filter (fun p => p.1 != userId) ++ [(userId, cs)] }, none)
  RemoveCustomStatus := fun s userId =>
    ({ s with customStatuses := s.customStatuses.filter (fun p => p.1 != userId) }, none)
  RemoveRecentCustomStatus := fun s userId cs =>
    ({ s with recentCustomStatuses := s.recentCustomStatuses.filter (fun p =>
        not (p.1 == userId && p.2.Emoji == cs.Emoji && p.2.Text == cs.Text)) }, none)

/-- Modelled from the spec: the web context and the `model.CustomStatus` methods absent from the
sources.  `RequireUserId` rejects a `c.Params.UserId` that has not the identifier shape (26 bytes),
`IsSystemAdmin` reads the role of the session, the duration check rejects a negative expiry and
`PreSave` leaves the payload as it is. -/
def memEnv : Env Store where
  App := memApp
  RequireUserId := fun c =>
    if len c.Params.UserId = 26 then c else { c with Err := some (Err.invalidUrlParam "user_id") }
  IsSystemAdmin := fun _ c => c.Session.Roles == "system_admin"
  AreDurationAndExpirationTimeValid := fun cs => decide (0 ≤ cs.ExpiresAt)
  PreSave := fun cs => cs

/-- A user id of the identifier shape. -/
def U1 : String := "u1aaaaaaaaaaaaaaaaaaaaaaaa"

/-- A second user id of the identifier shape. -/
def U2 : String := "u2bbbbbbbbbbbbbbbbbbbbbbbb"

/-- The context of a request of user `U1` on the target user `U1`. -/
def ctxU1 : Context :=
  { Params := { UserId := U1 }, Session := { UserId := U1, Roles := "system_user" }, Err := none }

/-- The context of a request of user `U1` with a malformed target user id in the URL. -/
def ctxBadId : Context :=
  { Params := { UserId := "short" }, Session := { UserId := U1, Roles := "system_user" },
    Err := none }

/-- A store in which `U1` is out of office with an active automatic reply and `U2` is online. -/
def storeOOO : Store :=
  { config := { TimedDND := false, EnableCustomUserStatuses := true },
    statuses := [{ UserId := U1, Status := "ooo", DNDEndTime := 0, LastActivityAt := 7 },
                 { UserId := U2, Status := "online", DNDEndTime := 0, LastActivityAt := 9 }],
    autoResponders := [U1],
    customStatuses := [],
    recentCustomStatuses := [],
    mayModify := true,
    getStatusFails := false,
    disableFails := false }

/-- The request whose body decodes to the status `literal` for user `U1`. -/
def statusRequest (literal : String) : Request :=
  { StatusFromJson := some { UserId := U1, Status := literal, DNDEndTime := 0, LastActivityAt := 0 },
    ArrayFromJson := [],
    CustomStatusFromJson := none }


/-- The four status literals the switch of `updateUserStatus` has a case for. -/
def validStatusLiterals : List String := ["online", "offline", "away", "dnd"]

/-- The store `storeOOO` with a failing auto-responder. -/
def storeDisableFails : Store := { storeOOO with disableFails := true }

/-- The store `storeOOO` with a failing registry read. -/
def storeReadFails : Store := { storeOOO with getStatusFails := true }

/-- The store `storeOOO` with custom statuses administratively disabled. -/
def storeCustomOff : Store :=
  { storeOOO with config := { TimedDND := false, EnableCustomUserStatuses := false } }

/-- The store `storeOOO` with a negative permission decision. -/
def storeDenied : Store := { storeOOO with mayModify := false }

/-- A third user id of the identifier shape, not observed in `storeOOO`. -/
def U3 : String := "u3cccccccccccccccccccccccc"

/-- The context of a request of user `U1` on the target user `U3`. -/
def ctxU3 : Context :=
  { Params := { UserId := U3 }, Session := { UserId := U1, Roles := "system_user" }, Err := none }

/-- The request whose body decodes to the list of user ids `userIds`. -/
def idsRequest (userIds : List String) : Request :=
  { StatusFromJson := none, ArrayFromJson := userIds, CustomStatusFromJson := none }

/-- The request whose body decodes to the custom status with the given emoji and text. -/
def customStatusRequest (emoji text : String) : Request :=
  { StatusFromJson := none,
    ArrayFromJson := [],
    CustomStatusFromJson := some { Emoji := emoji, Text := text, Duration := "", ExpiresAt := 0 } }

/-! # Results -/

/-! ## Facts about the handlers used by several results -/

/-- The handler `getUserStatus` leaves the application state as it is. -/
theorem getUserStatus_state {σ : Type} (env : Env σ) (x : Exec σ) (r : Request) :
    (getUserStatus env x r).state = x.state := by
  unfold getUserStatus
  simp only []
  split
  · rfl
  · split
    · rfl
    · split <;> rfl

/-- The handler `getUserStatus` adds at most lookups to the calls made so far. -/
theorem getUserStatus_calls {σ : Type} (env : Env σ) (x : Exec σ) (r : Request) :
    ∃ tail, (getUserStatus env x r).calls = x.calls ++ tail ∧
      ∀ k ∈ tail, ∃ ids, k = Call.GetUserStatusesByIds ids := by
  unfold getUserStatus
  simp only []
  split
  · exact ⟨[], by simp, by simp⟩
  · split
    · exact ⟨[Call.GetUserStatusesByIds [(env.RequireUserId x.c).Params.UserId]], rfl, by simp⟩
    · split
      · exact ⟨[Call.GetUserStatusesByIds [(env.RequireUserId x.c).Params.UserId]], rfl, by simp⟩
      · exact ⟨[Call.GetUserStatusesByIds [(env.RequireUserId x.c).Params.UserId]], rfl, by simp⟩

/-- The switch has a case for a literal exactly when it is one of the four valid ones. -/
theorem setStatusSwitch_isSome {σ : Type} (env : Env σ) (c : Context) (status : Status)
    (x : Exec σ) :
    (setStatusSwitch env c status x).isSome = true ↔ status.Status ∈ validStatusLiterals := by
  unfold setStatusSwitch validStatusLiterals
  by_cases h1 : status.Status = "online"
  · simp [h1]
  by_cases h2 : status.Status = "offline"
  · simp [h2]
  by_cases h3 : status.Status = "away"
  · simp [h3]
  by_cases h4 : status.Status = "dnd"
  · by_cases ht : (env.App.Config x.state).TimedDND = true <;> simp [h4, ht]
  · simp [h1, h2, h3, h4]

/-- When the switch has a case, it makes exactly one call, a `SetStatus*` one. -/
theorem setStatusSwitch_calls {σ : Type} (env : Env σ) (c : Context) (status : Status)
    (x x4 : Exec σ) (h : setStatusSwitch env c status x = some x4) :
    ∃ k, k.isSetStatus = true ∧ k.isDisable = false ∧ x4.calls = x.calls ++ [k] ∧
      x4.c = x.c ∧ x4.w = x.w := by
  unfold setStatusSwitch at h
  split at h
  · cases h; exact ⟨Call.SetStatusOnline _ _, rfl, rfl, rfl, rfl, rfl⟩
  split at h
  · cases h; exact ⟨Call.SetStatusOffline _ _, rfl, rfl, rfl, rfl, rfl⟩
  split at h
  · cases h; exact ⟨Call.SetStatusAwayIfNeeded _ _, rfl, rfl, rfl, rfl, rfl⟩
  split at h
  · split at h
    · cases h; exact ⟨Call.SetStatusDoNotDisturbTimed _ _, rfl, rfl, rfl, rfl, rfl⟩
    · cases h; exact ⟨Call.SetStatusDoNotDisturb _, rfl, rfl, rfl, rfl, rfl⟩
  · cases h

/-- When the switch has a case, the state it leaves and the call it logs are those of the
`SetStatus*` method of the application layer that the literal selects. -/
theorem setStatusSwitch_commit {σ : Type} (env : Env σ) (c : Context) (status : Status)
    (x x4 : Exec σ) (h : setStatusSwitch env c status x = some x4) :
    (status.Status = "online" →
      x4.state = env.App.SetStatusOnline x.state c.Params.UserId true ∧
      x4.calls = x.calls ++ [Call.SetStatusOnline c.Params.UserId true]) ∧
    (status.Status = "offline" →
      x4.state = env.App.SetStatusOffline x.state c.Params.UserId true ∧
      x4.calls = x.calls ++ [Call.SetStatusOffline c.Params.UserId true]) ∧
    (status.Status = "away" →
      x4.state = env.App.SetStatusAwayIfNeeded x.state c.Params.UserId true ∧
      x4.calls = x.calls ++ [Call.SetStatusAwayIfNeeded c.Params.UserId true]) ∧
    (status.Status = "dnd" → (env.App.Config x.state).TimedDND = true →
      x4.state = env.App.SetStatusDoNotDisturbTimed x.state c.Params.UserId status.DNDEndTime ∧
      x4.calls = x.calls ++
        [Call.SetStatusDoNotDisturbTimed c.Params.UserId status.DNDEndTime]) ∧
    (status.Status = "dnd" → (env.App.Config x.state).TimedDND = false →
      x4.state = env.App.SetStatusDoNotDisturb x.state c.Params.UserId ∧
      x4.calls = x.calls ++ [Call.SetStatusDoNotDisturb c.Params.UserId]) := by
  unfold setStatusSwitch at h
  split at h
  · next h1 => cases h; simp [h1]
  split at h
  · next h1 => cases h; simp [h1]
  split at h
  · next h1 => cases h; simp [h1]
  split at h
  · next h1 =>
    split at h
    · next ht => cases h; simp [h1, ht]
    · next ht => cases h; simp [h1, ht]
  · cases h

/-- The state the auto-responder step leaves: that of `DisableAutoResponder` when the read
succeeds, the current status is out of office and the requested one is not, the given state
otherwise. -/
theorem disableAutoResponderStep_state {σ : Type} (env : Env σ) (c : Context) (status : Status)
    (x : Exec σ) :
    (disableAutoResponderStep env c status x).state =
      (match env.App.GetStatus x.state c.Params.UserId with
       | .ok currentStatus =>
         if currentStatus.Status = StatusOutOfOffice ∧ status.Status ≠ StatusOutOfOffice then
           (env.App.DisableAutoResponder x.state c.Params.UserId
             (env.IsSystemAdmin x.state c)).1
         else x.state
       | .error _ => x.state) := by
  unfold disableAutoResponderStep
  simp only []
  split
  · split <;> rfl
  · rfl

/-- The run of `updateUserStatus` on a request that passes the user-id, body and permission
checks: the auto-responder step, the switch, and `getUserStatus` when the switch has a case. -/
theorem updateUserStatus_checked {σ : Type} (env : Env σ) (c : Context) (s : σ) (r : Request)
    (status : Status)
    (hid : (env.RequireUserId c).Err = none)
    (hbody : r.StatusFromJson = some status)
    (huser : status.UserId = (env.RequireUserId c).Params.UserId)
    (hperm : env.App.SessionHasPermissionToUser s (env.RequireUserId c).Session
      (env.RequireUserId c).Params.UserId = true) :
    updateUserStatus env (Exec.start c s) r =
      match setStatusSwitch env (env.RequireUserId c) status
          (disableAutoResponderStep env (env.RequireUserId c) status
            { c := env.RequireUserId c, state := s,
              calls := [Call.SessionHasPermissionToUser (env.RequireUserId c).Session
                (env.RequireUserId c).Params.UserId],
              w := [] }) with
      | some x4 => getUserStatus env x4 r
      | none =>
        { disableAutoResponderStep env (env.RequireUserId c) status
            { c := env.RequireUserId c, state := s,
              calls := [Call.SessionHasPermissionToUser (env.RequireUserId c).Session
                (env.RequireUserId c).Params.UserId],
              w := [] } with
          c := (env.RequireUserId c).SetInvalidParam "status" } := by
  simp [updateUserStatus, Exec.start, hid, hbody, huser, hperm]


/-- A valid status literal is not the out-of-office literal. -/
theorem ne_outOfOffice_of_valid (lit : String) (h : lit ∈ validStatusLiterals) :
    lit ≠ StatusOutOfOffice := by
  unfold validStatusLiterals at h
  unfold StatusOutOfOffice
  simp only [List.mem_cons, List.mem_singleton, List.not_mem_nil, or_false] at h
  rcases h with h | h | h | h <;> subst h <;> decide

/-- The auto-responder step when the registry read succeeds. -/
theorem disableAutoResponderStep_ok {σ : Type} (env : Env σ) (c : Context) (status : Status)
    (x : Exec σ) (currentStatus : Status)
    (hread : env.App.GetStatus x.state c.Params.UserId = .ok currentStatus) :
    disableAutoResponderStep env c status x =
      if currentStatus.Status = StatusOutOfOffice ∧ status.Status ≠ StatusOutOfOffice then
        { x with
          state := (env.App.DisableAutoResponder x.state c.Params.UserId
                      (env.IsSystemAdmin x.state c)).1,
          calls := x.calls ++ [Call.GetStatus c.Params.UserId,
                      Call.DisableAutoResponder c.Params.UserId (env.IsSystemAdmin x.state c)] }
      else { x with calls := x.calls ++ [Call.GetStatus c.Params.UserId] } := by
  unfold disableAutoResponderStep
  simp only [hread]
  split <;> simp

/-- The auto-responder step when the registry read fails: only the read is made. -/
theorem disableAutoResponderStep_error {σ : Type} (env : Env σ) (c : Context) (status : Status)
    (x : Exec σ) (err : AppError)
    (hread : env.App.GetStatus x.state c.Params.UserId = .error err) :
    disableAutoResponderStep env c status x =
      { x with calls := x.calls ++ [Call.GetStatus c.Params.UserId] } := by
  unfold disableAutoResponderStep
  simp only [hread]

/-- The auto-responder step makes no `SetStatus*` call, keeps `c` and `w`, and changes the state
by at most one `DisableAutoResponder`. -/
theorem disableAutoResponderStep_frame {σ : Type} (env : Env σ) (c : Context) (status : Status)
    (x : Exec σ) :
    (disableAutoResponderStep env c status x).c = x.c ∧
    (disableAutoResponderStep env c status x).w = x.w ∧
    (∃ tail, (disableAutoResponderStep env c status x).calls = x.calls ++ tail ∧
      ∀ k ∈ tail, k.isSetStatus = false) ∧
    ((disableAutoResponderStep env c status x).state = x.state ∨
      ∃ u a, (disableAutoResponderStep env c status x).state =
        (env.App.DisableAutoResponder x.state u a).1) := by
  unfold disableAutoResponderStep
  simp only []
  split
  · split
    · refine ⟨rfl, rfl, ⟨[Call.GetStatus c.Params.UserId,
        Call.DisableAutoResponder c.Params.UserId (env.IsSystemAdmin x.state c)], by simp, ?_⟩,
        Or.inr ⟨_, _, rfl⟩⟩
      intro k hk
      simp only [List.mem_cons, List.mem_singleton, List.not_mem_nil, or_false] at hk
      rcases hk with hk | hk <;> subst hk <;> rfl
    · refine ⟨rfl, rfl, ⟨[Call.GetStatus c.Params.UserId], rfl, ?_⟩, Or.inl rfl⟩
      intro k hk
      simp only [List.mem_singleton] at hk
      subst hk; rfl
  · refine ⟨rfl, rfl, ⟨[Call.GetStatus c.Params.UserId], rfl, ?_⟩, Or.inl rfl⟩
    intro k hk
    simp only [List.mem_singleton] at hk
    subst hk; rfl

/-- Claim C3: on a request that passes the user-id, body and permission checks, with a status
literal among "online", "offline", "away", "dnd" and a prior presence state read from the registry,
`updateUserStatus` calls `DisableAutoResponder` for the target user exactly once when the prior
status is out of office and not at all otherwise, exactly one `SetStatus*` call is made, and no
`DisableAutoResponder` call comes after it.  The state the handler leaves is that of the
`SetStatus*` method the literal selects, applied to the state `DisableAutoResponder` returned
when the prior status is out of office, and to the initial state otherwise. -/
theorem updateUserStatus_disable_once_before_set {σ : Type} (env : Env σ) (c : Context) (s : σ)
    (r : Request) (status currentStatus : Status)
    (hid : (env.RequireUserId c).Err = none)
    (hbody : r.StatusFromJson = some status)
    (huser : status.UserId = (env.RequireUserId c).Params.UserId)
    (hperm : env.App.SessionHasPermissionToUser s (env.RequireUserId c).Session
      (env.RequireUserId c).Params.UserId = true)
    (hread : env.App.GetStatus s (env.RequireUserId c).Params.UserId = .ok currentStatus)
    (hvalid : status.Status ∈ validStatusLiterals) :
    (updateUserStatus env (Exec.start c s) r).calls.filter Call.isDisable =
        (if currentStatus.Status = StatusOutOfOffice then
          [Call.DisableAutoResponder (env.RequireUserId c).Params.UserId
            (env.IsSystemAdmin s (env.RequireUserId c))]
         else []) ∧
    (∃ pre commit post,
      (updateUserStatus env (Exec.start c s) r).calls = pre ++ commit :: post ∧
      commit.isSetStatus = true ∧
      (∀ k ∈ pre ++ post, k.isSetStatus = false) ∧
      (∀ k ∈ post, k.isDisable = false)) ∧
    ∃ s3,
      s3 = (if currentStatus.Status = StatusOutOfOffice then
              (env.App.DisableAutoResponder s (env.RequireUserId c).Params.UserId
                (env.IsSystemAdmin s (env.RequireUserId c))).1
            else s) ∧
      (status.Status = "online" →
        (updateUserStatus env (Exec.start c s) r).state =
          env.App.SetStatusOnline s3 (env.RequireUserId c).Params.UserId true ∧
        Call.SetStatusOnline (env.RequireUserId c).Params.UserId true ∈
          (updateUserStatus env (Exec.start c s) r).calls) ∧
      (status.Status = "offline" →
        (updateUserStatus env (Exec.start c s) r).state =
          env.App.SetStatusOffline s3 (env.RequireUserId c).Params.UserId true ∧
        Call.SetStatusOffline (env.RequireUserId c).Params.UserId true ∈
          (updateUserStatus env (Exec.start c s) r).calls) ∧
      (status.Status = "away" →
        (updateUserStatus env (Exec.start c s) r).state =
          env.App.SetStatusAwayIfNeeded s3 (env.RequireUserId c).Params.UserId true ∧
        Call.SetStatusAwayIfNeeded (env.RequireUserId c).Params.UserId true ∈
          (updateUserStatus env (Exec.start c s) r).calls) ∧
      (status.Status = "dnd" → (env.App.Config s3).TimedDND = true →
        (updateUserStatus env (Exec.start c s) r).state =
          env.App.SetStatusDoNotDisturbTimed s3 (env.RequireUserId c).Params.UserId
            status.DNDEndTime ∧
        Call.SetStatusDoNotDisturbTimed (env.RequireUserId c).Params.UserId status.DNDEndTime ∈
          (updateUserStatus env (Exec.start c s) r).calls) ∧
      (status.Status = "dnd" → (env.App.Config s3).TimedDND = false →
        (updateUserStatus env (Exec.start c s) r).state =
          env.App.SetStatusDoNotDisturb s3 (env.RequireUserId c).Params.UserId ∧
        Call.SetStatusDoNotDisturb (env.RequireUserId c).Params.UserId ∈
          (updateUserStatus env (Exec.start c s) r).calls) := by
  have hne := ne_outOfOffice_of_valid _ hvalid
  rw [updateUserStatus_checked env c s r status hid hbody huser hperm]
  rw [disableAutoResponderStep_ok env _ status _ currentStatus hread]
  simp only [hne, ne_eq, not_false_eq_true, and_true]
  generalize hx3 : (if currentStatus.Status = StatusOutOfOffice then
      ({ c := env.RequireUserId c,
         state := (env.App.DisableAutoResponder s (env.RequireUserId c).Params.UserId
                      (env.IsSystemAdmin s (env.RequireUserId c))).1,
         calls := [Call.SessionHasPermissionToUser (env.RequireUserId c).Session
                      (env.RequireUserId c).Params.UserId] ++
                    [Call.GetStatus (env.RequireUserId c).Params.UserId,
                     Call.DisableAutoResponder (env.RequireUserId c).Params.UserId
                      (env.IsSystemAdmin s (env.RequireUserId c))],
         w := [] } : Exec σ)
    else
      { c := env.RequireUserId c, state := s,
        calls := [Call.SessionHasPermissionToUser (env.RequireUserId c).Session
                      (env.RequireUserId c).Params.UserId] ++
                    [Call.GetStatus (env.RequireUserId c).Params.UserId],
        w := [] }) = x3
  have hcalls : x3.calls =
      [Call.SessionHasPermissionToUser (env.RequireUserId c).Session
          (env.RequireUserId c).Params.UserId,
        Call.GetStatus (env.RequireUserId c).Params.UserId] ++
      (if currentStatus.Status = StatusOutOfOffice then
          [Call.DisableAutoResponder (env.RequireUserId c).Params.UserId
            (env.IsSystemAdmin s (env.RequireUserId c))]
       else []) := by
    rw [← hx3]; split <;> rfl
  have hsome := (setStatusSwitch_isSome env (env.RequireUserId c) status x3).2 hvalid
  obtain ⟨x4, hx4⟩ := Option.isSome_iff_exists.1 hsome
  obtain ⟨k, hk1, hk2, hk3, -, -⟩ := setStatusSwitch_calls env _ status x3 x4 hx4
  obtain ⟨tail, ht1, ht2⟩ := getUserStatus_calls env x4 r
  rw [hx4]
  simp only []
  have htailD : ∀ j ∈ tail, j.isDisable = false := by
    intro j hj; obtain ⟨ids, rfl⟩ := ht2 j hj; rfl
  have htailS : ∀ j ∈ tail, j.isSetStatus = false := by
    intro j hj; obtain ⟨ids, rfl⟩ := ht2 j hj; rfl
  have hfilter : tail.filter Call.isDisable = [] := by
    rw [List.filter_eq_nil_iff]
    intro j hj; simp [htailD j hj]
  have hstate3 : x3.state =
      (if currentStatus.Status = StatusOutOfOffice then
        (env.App.DisableAutoResponder s (env.RequireUserId c).Params.UserId
          (env.IsSystemAdmin s (env.RequireUserId c))).1
       else s) := by
    rw [← hx3]; split <;> rfl
  obtain ⟨c1, c2, c3, c4, c5⟩ := setStatusSwitch_commit env _ status x3 x4 hx4
  have hmem : ∀ j, x4.calls = x3.calls ++ [j] → j ∈ (getUserStatus env x4 r).calls := by
    intro j hj
    rw [ht1, hj]
    simp
  refine ⟨?_, ⟨x3.calls, k, tail, ?_, hk1, ?_, htailD⟩, x3.state, hstate3, ?_, ?_, ?_, ?_, ?_⟩
  · have hkf : [k].filter Call.isDisable = [] := by simp [hk2]
    rw [ht1, hk3, hcalls]
    simp only [List.filter_append, hfilter, hkf, List.append_nil]
    split <;> rfl
  · rw [ht1, hk3]; simp
  · intro j hj
    rw [List.mem_append] at hj
    rcases hj with hj | hj
    · rw [hcalls, List.mem_append] at hj
      rcases hj with hj | hj
      · simp only [List.mem_cons, List.mem_singleton, List.not_mem_nil, or_false] at hj
        rcases hj with hj | hj <;> subst hj <;> rfl
      · split at hj
        · simp only [List.mem_singleton] at hj
          subst hj; rfl
        · simp at hj
    · exact htailS j hj
  · intro h
    exact ⟨(getUserStatus_state env x4 r).trans (c1 h).1, hmem _ (c1 h).2⟩
  · intro h
    exact ⟨(getUserStatus_state env x4 r).trans (c2 h).1, hmem _ (c2 h).2⟩
  · intro h
    exact ⟨(getUserStatus_state env x4 r).trans (c3 h).1, hmem _ (c3 h).2⟩
  · intro h ht
    exact ⟨(getUserStatus_state env x4 r).trans (c4 h ht).1, hmem _ (c4 h ht).2⟩
  · intro h ht
    exact ⟨(getUserStatus_state env x4 r).trans (c5 h ht).1, hmem _ (c5 h ht).2⟩

/-- Witness of `updateUserStatus_disable_once_before_set`: user `U1`, out of office with an
active automatic reply, asks for "online"; the automatic reply is switched off and the registry
holds "online" for `U1`. -/
theorem updateUserStatus_disable_once_before_set_witness :
    (updateUserStatus memEnv (Exec.start ctxU1 storeOOO) (statusRequest "online")).calls.filter
        Call.isDisable = [Call.DisableAutoResponder U1 false] ∧
    (updateUserStatus memEnv (Exec.start ctxU1 storeOOO) (statusRequest "online")).state =
      memApp.SetStatusOnline (memApp.DisableAutoResponder storeOOO U1 false).1 U1 true ∧
    (updateUserStatus memEnv (Exec.start ctxU1 storeOOO)
      (statusRequest "online")).state.autoResponders = [] ∧
    (updateUserStatus memEnv (Exec.start ctxU1 storeOOO) (statusRequest "online")).state.statuses =
      [{ UserId := U1, Status := "online", DNDEndTime := 0, LastActivityAt := 7 },
       { UserId := U2, Status := "online", DNDEndTime := 0, LastActivityAt := 9 }] :=
  have h := updateUserStatus_disable_once_before_set memEnv ctxU1 storeOOO
    (statusRequest "online") (Status.mk U1 "online" 0 0) (Status.mk U1 "ooo" 0 7)
    (by decide) (by decide) (by decide) (by decide) rfl (by decide)
  have hs := h.2.2
  ⟨h.1, by
    obtain ⟨s3, hs3, h1, -⟩ := hs
    rw [(h1 rfl).1, hs3]
    rfl, by decide, by decide⟩

/-- Claim C4: on a request that passes the user-id, body and permission checks, `updateUserStatus`
makes a `SetStatus*` call if and only if the status literal is one of "online", "offline", "away",
"dnd", and the state it then leaves is that of the `SetStatus*` method the literal selects,
applied to the state `s3` after the auto-responder step; for any other literal it ends with the
invalid-parameter error for "status", writes nothing, makes no `SetStatus*` call and leaves
exactly `s3`, so no `SetStatus*` method is applied.  On the in-memory application layer, whose
`DisableAutoResponder` follows the ownership rule of the spec (the presence state is owned by the
registry and no other component mutates it), the presence states are then unchanged. -/
theorem updateUserStatus_set_iff_valid :
    (∀ (σ : Type) (env : Env σ) (c : Context) (s : σ) (r : Request) (status : Status),
      (env.RequireUserId c).Err = none →
      r.StatusFromJson = some status →
      status.UserId = (env.RequireUserId c).Params.UserId →
      env.App.SessionHasPermissionToUser s (env.RequireUserId c).Session
        (env.RequireUserId c).Params.UserId = true →
      ∃ s3,
        s3 = (match env.App.GetStatus s (env.RequireUserId c).Params.UserId with
              | .ok currentStatus =>
                if currentStatus.Status = StatusOutOfOffice ∧
                    status.Status ≠ StatusOutOfOffice then
                  (env.App.DisableAutoResponder s (env.RequireUserId c).Params.UserId
                    (env.IsSystemAdmin s (env.RequireUserId c))).1
                else s
              | .error _ => s) ∧
        ((∃ k ∈ (updateUserStatus env (Exec.start c s) r).calls, k.isSetStatus = true) ↔
          status.Status ∈ validStatusLiterals) ∧
        (status.Status = "online" →
          (updateUserStatus env (Exec.start c s) r).state =
            env.App.SetStatusOnline s3 (env.RequireUserId c).Params.UserId true ∧
          Call.SetStatusOnline (env.RequireUserId c).Params.UserId true ∈
            (updateUserStatus env (Exec.start c s) r).calls) ∧
        (status.Status = "offline" →
          (updateUserStatus env (Exec.start c s) r).state =
            env.App.SetStatusOffline s3 (env.RequireUserId c).Params.UserId true ∧
          Call.SetStatusOffline (env.RequireUserId c).Params.UserId true ∈
            (updateUserStatus env (Exec.start c s) r).calls) ∧
        (status.Status = "away" →
          (updateUserStatus env (Exec.start c s) r).state =
            env.App.SetStatusAwayIfNeeded s3 (env.RequireUserId c).Params.UserId true ∧
          Call.SetStatusAwayIfNeeded (env.RequireUserId c).Params.UserId true ∈
            (updateUserStatus env (Exec.start c s) r).calls) ∧
        (status.Status = "dnd" → (env.App.Config s3).TimedDND = true →
          (updateUserStatus env (Exec.start c s) r).state =
            env.App.SetStatusDoNotDisturbTimed s3 (env.RequireUserId c).Params.UserId
              status.DNDEndTime ∧
          Call.SetStatusDoNotDisturbTimed (env.RequireUserId c).Params.UserId
              status.DNDEndTime ∈ (updateUserStatus env (Exec.start c s) r).calls) ∧
        (status.Status = "dnd" → (env.App.Config s3).TimedDND = false →
          (updateUserStatus env (Exec.start c s) r).state =
            env.App.SetStatusDoNotDisturb s3 (env.RequireUserId c).Params.UserId ∧
          Call.SetStatusDoNotDisturb (env.RequireUserId c).Params.UserId ∈
            (updateUserStatus env (Exec.start c s) r).calls) ∧
        (status.Status ∉ validStatusLiterals →
          (updateUserStatus env (Exec.start c s) r).c.Err = some (Err.invalidParam "status") ∧
          (updateUserStatus env (Exec.start c s) r).w = [] ∧
          (∀ k ∈ (updateUserStatus env (Exec.start c s) r).calls, k.isSetStatus = false) ∧
          (updateUserStatus env (Exec.start c s) r).state = s3)) ∧
    (∀ (env : Env Store) (c : Context) (s : Store) (r : Request) (status : Status),
      (env.RequireUserId c).Err = none →
      r.StatusFromJson = some status →
      status.UserId = (env.RequireUserId c).Params.UserId →
      memApp.SessionHasPermissionToUser s (env.RequireUserId c).Session
        (env.RequireUserId c).Params.UserId = true →
      status.Status ∉ validStatusLiterals →
      (updateUserStatus { env with App := memApp } (Exec.start c s) r).state.statuses =
        s.statuses) := by
  have hA : ∀ (σ : Type) (env : Env σ) (c : Context) (s : σ) (r : Request) (status : Status),
      (env.RequireUserId c).Err = none →
      r.StatusFromJson = some status →
      status.UserId = (env.RequireUserId c).Params.UserId →
      env.App.SessionHasPermissionToUser s (env.RequireUserId c).Session
        (env.RequireUserId c).Params.UserId = true →
      ∃ s3,
        s3 = (match env.App.GetStatus s (env.RequireUserId c).Params.UserId with
              | .ok currentStatus =>
                if currentStatus.Status = StatusOutOfOffice ∧
                    status.Status ≠ StatusOutOfOffice then
                  (env.App.DisableAutoResponder s (env.RequireUserId c).Params.UserId
                    (env.IsSystemAdmin s (env.RequireUserId c))).1
                else s
              | .error _ => s) ∧
        ((∃ k ∈ (updateUserStatus env (Exec.start c s) r).calls, k.isSetStatus = true) ↔
          status.Status ∈ validStatusLiterals) ∧
        (status.Status = "online" →
          (updateUserStatus env (Exec.start c s) r).state =
            env.App.SetStatusOnline s3 (env.RequireUserId c).Params.UserId true ∧
          Call.SetStatusOnline (env.RequireUserId c).Params.UserId true ∈
            (updateUserStatus env (Exec.start c s) r).calls) ∧
        (status.Status = "offline" →
          (updateUserStatus env (Exec.start c s) r).state =
            env.App.SetStatusOffline s3 (env.RequireUserId c).Params.UserId true ∧
          Call.SetStatusOffline (env.RequireUserId c).Params.UserId true ∈
            (updateUserStatus env (Exec.start c s) r).calls) ∧
        (status.Status = "away" →
          (updateUserStatus env (Exec.start c s) r).state =
            env.App.SetStatusAwayIfNeeded s3 (env.RequireUserId c).Params.UserId true ∧
          Call.SetStatusAwayIfNeeded (env.RequireUserId c).Params.UserId true ∈
            (updateUserStatus env (Exec.start c s) r).calls) ∧
        (status.Status = "dnd" → (env.App.Config s3).TimedDND = true →
          (updateUserStatus env (Exec.start c s) r).state =
            env.App.SetStatusDoNotDisturbTimed s3 (env.RequireUserId c).Params.UserId
              status.DNDEndTime ∧
          Call.SetStatusDoNotDisturbTimed (env.RequireUserId c).Params.UserId
              status.DNDEndTime ∈ (updateUserStatus env (Exec.start c s) r).calls) ∧
        (status.Status = "dnd" → (env.App.Config s3).TimedDND = false →
          (updateUserStatus env (Exec.start c s) r).state =
            env.App.SetStatusDoNotDisturb s3 (env.RequireUserId c).Params.UserId ∧
          Call.SetStatusDoNotDisturb (env.RequireUserId c).Params.UserId ∈
            (updateUserStatus env (Exec.start c s) r).calls) ∧
        (status.Status ∉ validStatusLiterals →
          (updateUserStatus env (Exec.start c s) r).c.Err = some (Err.invalidParam "status") ∧
          (updateUserStatus env (Exec.start c s) r).w = [] ∧
          (∀ k ∈ (updateUserStatus env (Exec.start c s) r).calls, k.isSetStatus = false) ∧
          (updateUserStatus env (Exec.start c s) r).state = s3) := by
    intro σ env c s r status hid hbody huser hperm
    rw [updateUserStatus_checked env c s r status hid hbody huser hperm]
    obtain ⟨-, hw3, ⟨tail3, hcalls3, htail3⟩, -⟩ :=
      disableAutoResponderStep_frame env (env.RequireUserId c) status
        { c := env.RequireUserId c, state := s,
          calls := [Call.SessionHasPermissionToUser (env.RequireUserId c).Session
            (env.RequireUserId c).Params.UserId],
          w := [] }
    have hstate3 := disableAutoResponderStep_state env (env.RequireUserId c) status
        { c := env.RequireUserId c, state := s,
          calls := [Call.SessionHasPermissionToUser (env.RequireUserId c).Session
            (env.RequireUserId c).Params.UserId],
          w := [] }
    simp only [] at hstate3
    generalize disableAutoResponderStep env (env.RequireUserId c) status
        { c := env.RequireUserId c, state := s,
          calls := [Call.SessionHasPermissionToUser (env.RequireUserId c).Session
            (env.RequireUserId c).Params.UserId],
          w := [] } = x3 at hw3 hcalls3 hstate3 ⊢
    have hx3S : ∀ k ∈ x3.calls, k.isSetStatus = false := by
      intro k hk
      rw [hcalls3, List.mem_append] at hk
      rcases hk with hk | hk
      · simp only [List.mem_singleton] at hk
        subst hk; rfl
      · exact htail3 k hk
    have hiff := setStatusSwitch_isSome env (env.RequireUserId c) status x3
    refine ⟨x3.state, hstate3, ?_⟩
    cases hsw : setStatusSwitch env (env.RequireUserId c) status x3 with
    | none =>
      have hnot : status.Status ∉ validStatusLiterals := by
        intro hv
        have := hiff.2 hv
        rw [hsw] at this
        simp at this
      have hlit : ∀ lit, lit ∈ validStatusLiterals → status.Status ≠ lit := by
        intro lit hl h
        exact hnot (h ▸ hl)
      simp only []
      refine ⟨⟨?_, fun hv => absurd hv hnot⟩,
        fun h => absurd h (hlit _ (by decide)), fun h => absurd h (hlit _ (by decide)),
        fun h => absurd h (hlit _ (by decide)), fun h => absurd h (hlit _ (by decide)),
        fun h => absurd h (hlit _ (by decide)), fun _ => ⟨by trivial, hw3, hx3S, by trivial⟩⟩
      rintro ⟨k, hk, hkS⟩
      rw [hx3S k hk] at hkS
      cases hkS
    | some x4 =>
      have hv : status.Status ∈ validStatusLiterals := by
        apply hiff.1
        rw [hsw]
        rfl
      obtain ⟨k, hk1, -, hk3, -, -⟩ := setStatusSwitch_calls env _ status x3 x4 hsw
      obtain ⟨c1, c2, c3, c4, c5⟩ := setStatusSwitch_commit env _ status x3 x4 hsw
      obtain ⟨tail, ht1, -⟩ := getUserStatus_calls env x4 r
      have hmem : ∀ j, x4.calls = x3.calls ++ [j] → j ∈ (getUserStatus env x4 r).calls := by
        intro j hj
        rw [ht1, hj]
        simp
      simp only []
      refine ⟨⟨fun _ => hv, fun _ => ⟨k, hmem k hk3, hk1⟩⟩, ?_, ?_, ?_, ?_, ?_,
        fun hnot => absurd hv hnot⟩
      · intro h
        exact ⟨(getUserStatus_state env x4 r).trans (c1 h).1, hmem _ (c1 h).2⟩
      · intro h
        exact ⟨(getUserStatus_state env x4 r).trans (c2 h).1, hmem _ (c2 h).2⟩
      · intro h
        exact ⟨(getUserStatus_state env x4 r).trans (c3 h).1, hmem _ (c3 h).2⟩
      · intro h ht
        exact ⟨(getUserStatus_state env x4 r).trans (c4 h ht).1, hmem _ (c4 h ht).2⟩
      · intro h ht
        exact ⟨(getUserStatus_state env x4 r).trans (c5 h ht).1, hmem _ (c5 h ht).2⟩
  refine ⟨hA, ?_⟩
  intro env c s r status hid hbody huser hperm hnot
  obtain ⟨s3, hs3, -, -, -, -, -, -, hinv⟩ :=
    hA Store { env with App := memApp } c s r status hid hbody huser hperm
  rw [(hinv hnot).2.2.2, hs3]
  split
  · split
    · simp only [memApp]
      split <;> rfl
    · rfl
  · rfl

/-- Witness of `updateUserStatus_set_iff_valid`: user `U1`, out of office with an active
automatic reply, sends the literal "bogus": the handler reports the invalid "status" parameter,
leaves the state `DisableAutoResponder` returned, and the presence states are as before; with the
literal "away" the handler leaves the state of `SetStatusAwayIfNeeded`. -/
theorem updateUserStatus_set_iff_valid_witness :
    (updateUserStatus memEnv (Exec.start ctxU1 storeOOO) (statusRequest "bogus")).c.Err =
      some (Err.invalidParam "status") ∧
    (updateUserStatus memEnv (Exec.start ctxU1 storeOOO) (statusRequest "bogus")).state =
      (memApp.DisableAutoResponder storeOOO U1 false).1 ∧
    (updateUserStatus memEnv (Exec.start ctxU1 storeOOO) (statusRequest "bogus")).state.statuses =
      storeOOO.statuses ∧
    (updateUserStatus memEnv (Exec.start ctxU1 storeOOO) (statusRequest "away")).state =
      memApp.SetStatusAwayIfNeeded (memApp.DisableAutoResponder storeOOO U1 false).1 U1 true :=
  have hb := updateUserStatus_set_iff_valid.1 Store memEnv ctxU1 storeOOO (statusRequest "bogus")
    (Status.mk U1 "bogus" 0 0) (by decide) (by decide) (by decide) (by decide)
  have ha := updateUserStatus_set_iff_valid.1 Store memEnv ctxU1 storeOOO (statusRequest "away")
    (Status.mk U1 "away" 0 0) (by decide) (by decide) (by decide) (by decide)
  ⟨by
    obtain ⟨s3, -, -, -, -, -, -, -, hinv⟩ := hb
    exact (hinv (by decide)).1,
   by
    obtain ⟨s3, hs3, -, -, -, -, -, -, hinv⟩ := hb
    rw [(hinv (by decide)).2.2.2, hs3]
    rfl,
   updateUserStatus_set_iff_valid.2 memEnv ctxU1 storeOOO (statusRequest "bogus")
    (Status.mk U1 "bogus" 0 0) (by decide) (by decide) (by decide) (by decide) (by decide),
   by
    obtain ⟨s3, hs3, -, -, -, h3, -, -, -⟩ := ha
    rw [(h3 rfl).1, hs3]
    rfl⟩

/-- The run of `updateUserStatus` on a request that passes the user-id, body and permission
checks and carries a literal the switch has no case for, when the registry read succeeds: the
handler ends with the invalid-parameter error for "status", after the permission decision, the
read, and a `DisableAutoResponder` call when the current status is out of office and the literal
is not the out-of-office one. -/
theorem updateUserStatus_invalid_literal_calls {σ : Type} (env : Env σ) (c : Context) (s : σ)
    (r : Request) (status currentStatus : Status)
    (hid : (env.RequireUserId c).Err = none)
    (hbody : r.StatusFromJson = some status)
    (huser : status.UserId = (env.RequireUserId c).Params.UserId)
    (hperm : env.App.SessionHasPermissionToUser s (env.RequireUserId c).Session
      (env.RequireUserId c).Params.UserId = true)
    (hread : env.App.GetStatus s (env.RequireUserId c).Params.UserId = .ok currentStatus)
    (hinvalid : status.Status ∉ validStatusLiterals) :
    (updateUserStatus env (Exec.start c s) r).c.Err = some (Err.invalidParam "status") ∧
    (updateUserStatus env (Exec.start c s) r).calls =
      [Call.SessionHasPermissionToUser (env.RequireUserId c).Session
          (env.RequireUserId c).Params.UserId,
        Call.GetStatus (env.RequireUserId c).Params.UserId] ++
      (if currentStatus.Status = StatusOutOfOffice ∧ status.Status ≠ StatusOutOfOffice then
        [Call.DisableAutoResponder (env.RequireUserId c).Params.UserId
          (env.IsSystemAdmin s (env.RequireUserId c))]
       else []) := by
  rw [updateUserStatus_checked env c s r status hid hbody huser hperm]
  have hnone : ∀ x : Exec σ, setStatusSwitch env (env.RequireUserId c) status x = none := by
    intro x
    cases hsw : setStatusSwitch env (env.RequireUserId c) status x with
    | none => rfl
    | some x4 =>
      have := (setStatusSwitch_isSome env (env.RequireUserId c) status x).1 (by rw [hsw]; rfl)
      exact absurd this hinvalid
  rw [hnone]
  simp only []
  rw [disableAutoResponderStep_ok env _ status _ currentStatus hread]
  split <;> exact ⟨rfl, rfl⟩

/-- Claim C1, the code at the failing input: user `U1` is out of office and sends the literal
"bogus".  The handler ends with the invalid-parameter error for "status" after it has called
`DisableAutoResponder`: the automatic reply of `U1` is switched off while the presence state
stays out of office. -/
theorem updateUserStatus_bogus_after_disable :
    (updateUserStatus memEnv (Exec.start ctxU1 storeOOO) (statusRequest "bogus")).c.Err =
      some (Err.invalidParam "status") ∧
    (updateUserStatus memEnv (Exec.start ctxU1 storeOOO) (statusRequest "bogus")).calls =
      [Call.SessionHasPermissionToUser ctxU1.Session U1, Call.GetStatus U1,
        Call.DisableAutoResponder U1 false] ∧
    storeOOO.autoResponders = [U1] ∧
    (updateUserStatus memEnv (Exec.start ctxU1 storeOOO)
      (statusRequest "bogus")).state.autoResponders = [] ∧
    (updateUserStatus memEnv (Exec.start ctxU1 storeOOO) (statusRequest "bogus")).state.statuses =
      storeOOO.statuses := by
  decide

/-- Claim C2 as stated fails: user `U1` is out of office, asks for "online", and the
auto-responder disable call fails.  The handler ends without an error, has called
`SetStatusOnline` after the failed disable call, and returns the new status. -/
theorem updateUserStatus_disable_failure_dropped :
    (memEnv.App.DisableAutoResponder storeDisableFails U1 false).2 =
      some (NewAppError "DisableAutoResponder" "app.user.update.app_error" 500) ∧
    (updateUserStatus memEnv (Exec.start ctxU1 storeDisableFails) (statusRequest "online")).c.Err =
      none ∧
    (updateUserStatus memEnv (Exec.start ctxU1 storeDisableFails) (statusRequest "online")).calls =
      [Call.SessionHasPermissionToUser ctxU1.Session U1, Call.GetStatus U1,
        Call.DisableAutoResponder U1 false, Call.SetStatusOnline U1 true,
        Call.GetUserStatusesByIds [U1]] ∧
    (updateUserStatus memEnv (Exec.start ctxU1 storeDisableFails) (statusRequest "online")).w =
      [Written.status { UserId := U1, Status := "online", DNDEndTime := 0, LastActivityAt := 7 }] := by
  decide

/-- Claim C2, amended: on a request that passes the user-id, body and permission checks, with a
valid status literal, while the target user is out of office, a failure of the auto-responder
disable call is dropped: the handler goes on with the state that call left, makes exactly one
`SetStatus*` call after it, and ends as `getUserStatus` ends from there. -/
theorem updateUserStatus_continues_after_disable_failure {σ : Type} (env : Env σ) (c : Context)
    (s : σ) (r : Request) (status currentStatus : Status) (err : AppError)
    (hid : (env.RequireUserId c).Err = none)
    (hbody : r.StatusFromJson = some status)
    (huser : status.UserId = (env.RequireUserId c).Params.UserId)
    (hperm : env.App.SessionHasPermissionToUser s (env.RequireUserId c).Session
      (env.RequireUserId c).Params.UserId = true)
    (hread : env.App.GetStatus s (env.RequireUserId c).Params.UserId = .ok currentStatus)
    (hooo : currentStatus.Status = StatusOutOfOffice)
    (hvalid : status.Status ∈ validStatusLiterals)
    (_hfail : (env.App.DisableAutoResponder s (env.RequireUserId c).Params.UserId
      (env.IsSystemAdmin s (env.RequireUserId c))).2 = some err) :
    ∃ x4 k,
      setStatusSwitch env (env.RequireUserId c) status
        { c := env.RequireUserId c,
          state := (env.App.DisableAutoResponder s (env.RequireUserId c).Params.UserId
            (env.IsSystemAdmin s (env.RequireUserId c))).1,
          calls := [Call.SessionHasPermissionToUser (env.RequireUserId c).Session
              (env.RequireUserId c).Params.UserId,
            Call.GetStatus (env.RequireUserId c).Params.UserId,
            Call.DisableAutoResponder (env.RequireUserId c).Params.UserId
              (env.IsSystemAdmin s (env.RequireUserId c))],
          w := [] } = some x4 ∧
      k.isSetStatus = true ∧
      x4.calls = [Call.SessionHasPermissionToUser (env.RequireUserId c).Session
          (env.RequireUserId c).Params.UserId,
        Call.GetStatus (env.RequireUserId c).Params.UserId,
        Call.DisableAutoResponder (env.RequireUserId c).Params.UserId
          (env.IsSystemAdmin s (env.RequireUserId c)), k] ∧
      updateUserStatus env (Exec.start c s) r = getUserStatus env x4 r := by
  have hne := ne_outOfOffice_of_valid _ hvalid
  rw [updateUserStatus_checked env c s r status hid hbody huser hperm]
  rw [disableAutoResponderStep_ok env _ status _ currentStatus hread]
  simp only [hne, hooo, ne_eq, not_false_eq_true, and_self, if_true, List.singleton_append]
  have hsome := (setStatusSwitch_isSome env (env.RequireUserId c) status
    { c := env.RequireUserId c,
      state := (env.App.DisableAutoResponder s (env.RequireUserId c).Params.UserId
        (env.IsSystemAdmin s (env.RequireUserId c))).1,
      calls := [Call.SessionHasPermissionToUser (env.RequireUserId c).Session
          (env.RequireUserId c).Params.UserId,
        Call.GetStatus (env.RequireUserId c).Params.UserId,
        Call.DisableAutoResponder (env.RequireUserId c).Params.UserId
          (env.IsSystemAdmin s (env.RequireUserId c))],
      w := [] }).2 hvalid
  obtain ⟨x4, hx4⟩ := Option.isSome_iff_exists.1 hsome
  obtain ⟨k, hk1, -, hk3, -, -⟩ := setStatusSwitch_calls env _ status _ x4 hx4
  refine ⟨x4, k, hx4, hk1, ?_, ?_⟩
  · rw [hk3]; rfl
  · rw [hx4]

/-- Witness of `updateUserStatus_continues_after_disable_failure`: user `U1`, out of office,
asks for "dnd" while the auto-responder fails. -/
theorem updateUserStatus_continues_after_disable_failure_witness :
    ∃ x4 k,
      setStatusSwitch memEnv (memEnv.RequireUserId ctxU1) (Status.mk U1 "dnd" 0 0)
        { c := memEnv.RequireUserId ctxU1,
          state := (memEnv.App.DisableAutoResponder storeDisableFails
            (memEnv.RequireUserId ctxU1).Params.UserId
            (memEnv.IsSystemAdmin storeDisableFails (memEnv.RequireUserId ctxU1))).1,
          calls := [Call.SessionHasPermissionToUser (memEnv.RequireUserId ctxU1).Session
              (memEnv.RequireUserId ctxU1).Params.UserId,
            Call.GetStatus (memEnv.RequireUserId ctxU1).Params.UserId,
            Call.DisableAutoResponder (memEnv.RequireUserId ctxU1).Params.UserId
              (memEnv.IsSystemAdmin storeDisableFails (memEnv.RequireUserId ctxU1))],
          w := [] } = some x4 ∧
      k.isSetStatus = true ∧
      x4.calls = [Call.SessionHasPermissionToUser (memEnv.RequireUserId ctxU1).Session
          (memEnv.RequireUserId ctxU1).Params.UserId,
        Call.GetStatus (memEnv.RequireUserId ctxU1).Params.UserId,
        Call.DisableAutoResponder (memEnv.RequireUserId ctxU1).Params.UserId
          (memEnv.IsSystemAdmin storeDisableFails (memEnv.RequireUserId ctxU1)), k] ∧
      updateUserStatus memEnv (Exec.start ctxU1 storeDisableFails) (statusRequest "dnd") =
        getUserStatus memEnv x4 (statusRequest "dnd") :=
  updateUserStatus_continues_after_disable_failure memEnv ctxU1 storeDisableFails
    (statusRequest "dnd") (Status.mk U1 "dnd" 0 0) (Status.mk U1 "ooo" 0 7)
    (NewAppError "DisableAutoResponder" "app.user.update.app_error" 500)
    (by decide) (by decide) (by decide) (by decide) rfl (by decide) (by decide) (by decide)

/-- Claim C9 as stated fails: the registry read of the current status of `U1` fails and `U1`
asks for "away".  The handler ends without an error, has called `SetStatusAwayIfNeeded`, and
returns the new status. -/
theorem updateUserStatus_read_failure_dropped :
    memEnv.App.GetStatus storeReadFails U1 =
      .error (NewAppError "GetStatus" "app.status.get.app_error" 500) ∧
    (updateUserStatus memEnv (Exec.start ctxU1 storeReadFails) (statusRequest "away")).c.Err =
      none ∧
    (updateUserStatus memEnv (Exec.start ctxU1 storeReadFails) (statusRequest "away")).calls =
      [Call.SessionHasPermissionToUser ctxU1.Session U1, Call.GetStatus U1,
        Call.SetStatusAwayIfNeeded U1 true, Call.GetUserStatusesByIds [U1]] ∧
    (updateUserStatus memEnv (Exec.start ctxU1 storeReadFails) (statusRequest "away")).w =
      [Written.status { UserId := U1, Status := "away", DNDEndTime := 0, LastActivityAt := 7 }] :=
  ⟨rfl, by decide, by decide, by decide⟩

/-- Claim C9, amended: on a request that passes the user-id, body and permission checks, with a
valid status literal, a failure of the registry read of the current status is not propagated:
the handler skips `DisableAutoResponder`, makes exactly one `SetStatus*` call on the unchanged
state, and ends as `getUserStatus` ends from there. -/
theorem updateUserStatus_continues_after_read_failure {σ : Type} (env : Env σ) (c : Context)
    (s : σ) (r : Request) (status : Status) (err : AppError)
    (hid : (env.RequireUserId c).Err = none)
    (hbody : r.StatusFromJson = some status)
    (huser : status.UserId = (env.RequireUserId c).Params.UserId)
    (hperm : env.App.SessionHasPermissionToUser s (env.RequireUserId c).Session
      (env.RequireUserId c).Params.UserId = true)
    (hread : env.App.GetStatus s (env.RequireUserId c).Params.UserId = .error err)
    (hvalid : status.Status ∈ validStatusLiterals) :
    ∃ x4 k,
      setStatusSwitch env (env.RequireUserId c) status
        { c := env.RequireUserId c,
          state := s,
          calls := [Call.SessionHasPermissionToUser (env.RequireUserId c).Session
              (env.RequireUserId c).Params.UserId,
            Call.GetStatus (env.RequireUserId c).Params.UserId],
          w := [] } = some x4 ∧
      k.isSetStatus = true ∧
      x4.calls = [Call.SessionHasPermissionToUser (env.RequireUserId c).Session
          (env.RequireUserId c).Params.UserId,
        Call.GetStatus (env.RequireUserId c).Params.UserId, k] ∧
      updateUserStatus env (Exec.start c s) r = getUserStatus env x4 r := by
  rw [updateUserStatus_checked env c s r status hid hbody huser hperm]
  rw [disableAutoResponderStep_error env _ status _ err hread]
  simp only [List.singleton_append]
  have hsome := (setStatusSwitch_isSome env (env.RequireUserId c) status
    { c := env.RequireUserId c,
      state := s,
      calls := [Call.SessionHasPermissionToUser (env.RequireUserId c).Session
          (env.RequireUserId c).Params.UserId,
        Call.GetStatus (env.RequireUserId c).Params.UserId],
      w := [] }).2 hvalid
  obtain ⟨x4, hx4⟩ := Option.isSome_iff_exists.1 hsome
  obtain ⟨k, hk1, -, hk3, -, -⟩ := setStatusSwitch_calls env _ status _ x4 hx4
  refine ⟨x4, k, hx4, hk1, ?_, ?_⟩
  · rw [hk3]; rfl
  · rw [hx4]

/-- Witness of `updateUserStatus_continues_after_read_failure`: the registry read fails and user
`U1` asks for "offline". -/
theorem updateUserStatus_continues_after_read_failure_witness :
    ∃ x4 k,
      setStatusSwitch memEnv (memEnv.RequireUserId ctxU1) (Status.mk U1 "offline" 0 0)
        { c := memEnv.RequireUserId ctxU1,
          state := storeReadFails,
          calls := [Call.SessionHasPermissionToUser (memEnv.RequireUserId ctxU1).Session
              (memEnv.RequireUserId ctxU1).Params.UserId,
            Call.GetStatus (memEnv.RequireUserId ctxU1).Params.UserId],
          w := [] } = some x4 ∧
      k.isSetStatus = true ∧
      x4.calls = [Call.SessionHasPermissionToUser (memEnv.RequireUserId ctxU1).Session
          (memEnv.RequireUserId ctxU1).Params.UserId,
        Call.GetStatus (memEnv.RequireUserId ctxU1).Params.UserId, k] ∧
      updateUserStatus memEnv (Exec.start ctxU1 storeReadFails) (statusRequest "offline") =
        getUserStatus memEnv x4 (statusRequest "offline") :=
  updateUserStatus_continues_after_read_failure memEnv ctxU1 storeReadFails
    (statusRequest "offline") (Status.mk U1 "offline" 0 0)
    (NewAppError "GetStatus" "app.status.get.app_error" 500)
    (by decide) (by decide) (by decide) (by decide) rfl (by decide)

/-- The loop over the ids returns early exactly when some id has a `len` other than 26. -/
theorem hasMalformedId_iff (userIds : List String) :
    hasMalformedId userIds = true ↔ ∃ userId ∈ userIds, len userId ≠ 26 := by
  induction userIds with
  | nil => simp [hasMalformedId]
  | cons userId rest ih =>
    unfold hasMalformedId
    by_cases h : len userId = 26
    · simp [h, ih]
    · simp [h]

/-- Claim C5: for every list of user ids, `getUserStatusesByIds` ends with the invalid-parameter
error for "user_ids" if and only if the list is empty or holds an id whose `len` is not 26; in
that case the registry lookup is not called, nothing is written and the state is unchanged;
otherwise the lookup is called once, with the list as it came, and what the handler reports is
what `c.App.GetUserStatusesByIds` returns on that list: its list is written, or its error is set
and nothing is written. -/
theorem getUserStatusesByIds_invalid_iff {σ : Type} (env : Env σ) (c : Context) (s : σ)
    (r : Request) (hc : c.Err = none) :
    ((getUserStatusesByIds env (Exec.start c s) r).c.Err = some (Err.invalidParam "user_ids") ↔
      (r.ArrayFromJson = [] ∨ ∃ userId ∈ r.ArrayFromJson, len userId ≠ 26)) ∧
    ((r.ArrayFromJson = [] ∨ ∃ userId ∈ r.ArrayFromJson, len userId ≠ 26) →
      (getUserStatusesByIds env (Exec.start c s) r).calls = [] ∧
      (getUserStatusesByIds env (Exec.start c s) r).w = [] ∧
      (getUserStatusesByIds env (Exec.start c s) r).state = s) ∧
    (¬ (r.ArrayFromJson = [] ∨ ∃ userId ∈ r.ArrayFromJson, len userId ≠ 26) →
      (getUserStatusesByIds env (Exec.start c s) r).calls =
        [Call.GetUserStatusesByIds r.ArrayFromJson] ∧
      (getUserStatusesByIds env (Exec.start c s) r).state = s ∧
      ((getUserStatusesByIds env (Exec.start c s) r).c.Err,
        (getUserStatusesByIds env (Exec.start c s) r).w) =
        (match env.App.GetUserStatusesByIds s r.ArrayFromJson with
         | .ok statusMap => (none, [Written.statusList statusMap])
         | .error err => (some (Err.appError err), []))) := by
  have hmal := hasMalformedId_iff r.ArrayFromJson
  unfold getUserStatusesByIds Exec.start
  simp only [List.length_eq_zero]
  by_cases h0 : r.ArrayFromJson = []
  · simp [h0, Context.SetInvalidParam]
  · by_cases h1 : hasMalformedId r.ArrayFromJson = true
    · have h1e := hmal.1 h1
      simp only [h0, h1, if_false, if_true, false_or]
      simp [Context.SetInvalidParam, h1e]
    · have h1e : ¬ ∃ userId ∈ r.ArrayFromJson, len userId ≠ 26 := fun h => h1 (hmal.2 h)
      simp only [h0, h1, if_false, false_or, h1e, Bool.false_eq_true]
      cases hl : env.App.GetUserStatusesByIds s r.ArrayFromJson with
      | error err => simp
      | ok statusMap => simp [hc]

/-- Witness of `getUserStatusesByIds_invalid_iff`: two well-formed ids followed by a malformed
one are rejected without a lookup; the two well-formed ids alone are looked up and the list the
registry returns is written. -/
theorem getUserStatusesByIds_invalid_iff_witness :
    ((getUserStatusesByIds memEnv (Exec.start ctxU1 storeOOO)
        (idsRequest [U1, U2, "short"])).c.Err = some (Err.invalidParam "user_ids") ∧
      (getUserStatusesByIds memEnv (Exec.start ctxU1 storeOOO)
        (idsRequest [U1, U2, "short"])).calls = []) ∧
    ((getUserStatusesByIds memEnv (Exec.start ctxU1 storeOOO) (idsRequest [U1, U2])).calls =
        [Call.GetUserStatusesByIds [U1, U2]] ∧
      ((getUserStatusesByIds memEnv (Exec.start ctxU1 storeOOO) (idsRequest [U1, U2])).c.Err,
        (getUserStatusesByIds memEnv (Exec.start ctxU1 storeOOO) (idsRequest [U1, U2])).w) =
        (none, [Written.statusList
          [{ UserId := U1, Status := "ooo", DNDEndTime := 0, LastActivityAt := 7 },
           { UserId := U2, Status := "online", DNDEndTime := 0, LastActivityAt := 9 }]])) :=
  have h := getUserStatusesByIds_invalid_iff memEnv ctxU1 storeOOO (idsRequest [U1, U2, "short"])
    (by decide)
  have g := getUserStatusesByIds_invalid_iff memEnv ctxU1 storeOOO (idsRequest [U1, U2])
    (by decide)
  ⟨⟨h.1.2 (by decide), (h.2.1 (by decide)).1⟩,
    ⟨(g.2.2 (by decide)).1, (g.2.2 (by decide)).2.2⟩⟩

/-- Claim C8: `getUserStatus`, past the user-id requirement, ends with the not-found error
("api.status.user_not_found.app_error", 404) and writes nothing when the registry returns an empty
result without error; `getUserStatusesByIds` with a non-empty list of well-formed ids ends without
error whenever the registry does, and writes exactly the sequence the registry returned. -/
theorem getUserStatus_notFound_batch_passes {σ : Type} (env : Env σ) (c : Context) (s : σ)
    (r : Request) :
    ((env.RequireUserId c).Err = none →
      env.App.GetUserStatusesByIds s [(env.RequireUserId c).Params.UserId] = .ok [] →
      (getUserStatus env (Exec.start c s) r).c.Err =
        some (Err.appError
          { Where := "UserStatus", Id := "api.status.user_not_found.app_error",
            StatusCode := 404 }) ∧
      (getUserStatus env (Exec.start c s) r).w = []) ∧
    (∀ statusMap, c.Err = none → r.ArrayFromJson ≠ [] →
      (∀ userId ∈ r.ArrayFromJson, len userId = 26) →
      env.App.GetUserStatusesByIds s r.ArrayFromJson = .ok statusMap →
      (getUserStatusesByIds env (Exec.start c s) r).c.Err = none ∧
      (getUserStatusesByIds env (Exec.start c s) r).w = [Written.statusList statusMap]) := by
  constructor
  · intro hid hempty
    simp [getUserStatus, Exec.start, hid, hempty, NewAppError, StatusNotFound]
  · intro statusMap hc hne hwf hlookup
    have hmal : hasMalformedId r.ArrayFromJson = false := by
      cases h : hasMalformedId r.ArrayFromJson with
      | false => rfl
      | true =>
        obtain ⟨userId, hmem, hlen⟩ := (hasMalformedId_iff _).1 h
        exact absurd (hwf userId hmem) hlen
    simp [getUserStatusesByIds, Exec.start, hne, hmal, hlookup, hc]

/-- Witness of `getUserStatus_notFound_batch_passes`: `U3` is unknown to the registry; alone it is
not found, in a batch it is left out. -/
theorem getUserStatus_notFound_batch_passes_witness :
    ((getUserStatus memEnv (Exec.start ctxU3 storeOOO) (idsRequest [U1, U3, U2])).c.Err =
        some (Err.appError
          { Where := "UserStatus", Id := "api.status.user_not_found.app_error",
            StatusCode := 404 }) ∧
      (getUserStatus memEnv (Exec.start ctxU3 storeOOO) (idsRequest [U1, U3, U2])).w = []) ∧
    ((getUserStatusesByIds memEnv (Exec.start ctxU3 storeOOO) (idsRequest [U1, U3, U2])).c.Err =
        none ∧
      (getUserStatusesByIds memEnv (Exec.start ctxU3 storeOOO) (idsRequest [U1, U3, U2])).w =
        [Written.statusList
          [{ UserId := U1, Status := "ooo", DNDEndTime := 0, LastActivityAt := 7 },
           { UserId := U2, Status := "online", DNDEndTime := 0, LastActivityAt := 9 }]]) :=
  have h := getUserStatus_notFound_batch_passes memEnv ctxU3 storeOOO (idsRequest [U1, U3, U2])
  ⟨h.1 (by decide) rfl, h.2 _ (by decide) (by decide) (by decide) rfl⟩

/-- Claim C6 as stated fails: custom statuses are disabled and the request has a malformed user
id in the URL.  Each of the three custom-status handlers ends with the error of the user-id
requirement, not with the feature-disabled error: the user id is checked before the feature. -/
theorem customStatus_userId_checked_before_feature :
    (memEnv.App.Config storeCustomOff).EnableCustomUserStatuses = false ∧
    (updateUserCustomStatus memEnv (Exec.start ctxBadId storeCustomOff)
        (customStatusRequest "" "")).c.Err = some (Err.invalidUrlParam "user_id") ∧
    (updateUserCustomStatus memEnv (Exec.start ctxBadId storeCustomOff)
        (customStatusRequest "" "")).c.Err ≠
      some (Err.appError (NewAppError "updateUserCustomStatus" "api.custom_status.disabled" 501)) ∧
    (removeUserCustomStatus memEnv (Exec.start ctxBadId storeCustomOff)
        (customStatusRequest "" "")).c.Err = some (Err.invalidUrlParam "user_id") ∧
    (removeUserRecentCustomStatus memEnv (Exec.start ctxBadId storeCustomOff)
        (customStatusRequest "" "")).c.Err = some (Err.invalidUrlParam "user_id") := by
  decide

/-- Claim C6, amended: when custom statuses are disabled, each of the three custom-status
handlers performs no mutation, for every request: the application state is left as it is, nothing
is written, and none of the recorded methods of `c.App` (the permission decision, the lookups and
every writing method) is called; when the request passes the user-id requirement the handler ends
with the feature-disabled error ("api.custom_status.disabled", 501) whatever the payload and the
permission decision are, and otherwise with the error of the user-id requirement. -/
theorem customStatus_disabled {σ : Type} (env : Env σ) (c : Context) (s : σ) (r : Request)
    (hoff : (env.App.Config s).EnableCustomUserStatuses = false) :
    ((updateUserCustomStatus env (Exec.start c s) r).calls = [] ∧
      (updateUserCustomStatus env (Exec.start c s) r).state = s ∧
      (updateUserCustomStatus env (Exec.start c s) r).w = [] ∧
      ((env.RequireUserId c).Err = none →
        (updateUserCustomStatus env (Exec.start c s) r).c.Err = some (Err.appError
          { Where := "updateUserCustomStatus", Id := "api.custom_status.disabled",
            StatusCode := 501 })) ∧
      ((env.RequireUserId c).Err ≠ none →
        (updateUserCustomStatus env (Exec.start c s) r).c.Err = (env.RequireUserId c).Err)) ∧
    ((removeUserCustomStatus env (Exec.start c s) r).calls = [] ∧
      (removeUserCustomStatus env (Exec.start c s) r).state = s ∧
      (removeUserCustomStatus env (Exec.start c s) r).w = [] ∧
      ((env.RequireUserId c).Err = none →
        (removeUserCustomStatus env (Exec.start c s) r).c.Err = some (Err.appError
          { Where := "removeUserCustomStatus", Id := "api.custom_status.disabled",
            StatusCode := 501 })) ∧
      ((env.RequireUserId c).Err ≠ none →
        (removeUserCustomStatus env (Exec.start c s) r).c.Err = (env.RequireUserId c).Err)) ∧
    ((removeUserRecentCustomStatus env (Exec.start c s) r).calls = [] ∧
      (removeUserRecentCustomStatus env (Exec.start c s) r).state = s ∧
      (removeUserRecentCustomStatus env (Exec.start c s) r).w = [] ∧
      ((env.RequireUserId c).Err = none →
        (removeUserRecentCustomStatus env (Exec.start c s) r).c.Err = some (Err.appError
          { Where := "removeUserRecentCustomStatus", Id := "api.custom_status.disabled",
            StatusCode := 501 })) ∧
      ((env.RequireUserId c).Err ≠ none →
        (removeUserRecentCustomStatus env (Exec.start c s) r).c.Err =
          (env.RequireUserId c).Err)) := by
  refine ⟨?_, ?_, ?_⟩
  · unfold updateUserCustomStatus Exec.start
    by_cases hid : (env.RequireUserId c).Err = none
    · simp [hid, hoff, NewAppError, StatusNotImplemented]
    · simp [hid]
  · unfold removeUserCustomStatus Exec.start
    by_cases hid : (env.RequireUserId c).Err = none
    · simp [hid, hoff, NewAppError, StatusNotImplemented]
    · simp [hid]
  · unfold removeUserRecentCustomStatus Exec.start
    by_cases hid : (env.RequireUserId c).Err = none
    · simp [hid, hoff, NewAppError, StatusNotImplemented]
    · simp [hid]

/-- Witness of `customStatus_disabled`: custom statuses are disabled, the user id is well formed,
the payload is empty and the permission decision is negative; the feature-disabled error wins. -/
theorem customStatus_disabled_witness :
    (updateUserCustomStatus memEnv (Exec.start ctxU1 storeCustomOff)
        (customStatusRequest "" "")).calls = [] ∧
    (updateUserCustomStatus memEnv (Exec.start ctxU1 storeCustomOff)
        (customStatusRequest "" "")).c.Err = some (Err.appError
          { Where := "updateUserCustomStatus", Id := "api.custom_status.disabled",
            StatusCode := 501 }) :=
  have h := customStatus_disabled memEnv ctxU1 storeCustomOff (customStatusRequest "" "")
    (by decide)
  ⟨h.1.1, h.1.2.2.2.1 (by decide)⟩

/-- Claim C7: in `updateUserCustomStatus`, past the user-id requirement and with the feature
enabled, a decoded payload whose emoji and text are both empty is rejected with the
invalid-parameter error for "custom_status" and no call is made; a payload with a non-empty emoji
or text that passes the duration and expiry check goes on to the permission decision and, when it
is positive, to `SetCustomStatus` of the pre-saved payload, whose result is the result of the
handler. -/
theorem updateUserCustomStatus_payload {σ : Type} (env : Env σ) (c : Context) (s : σ)
    (r : Request) (customStatus : CustomStatus)
    (hid : (env.RequireUserId c).Err = none)
    (hon : (env.App.Config s).EnableCustomUserStatuses = true)
    (hbody : r.CustomStatusFromJson = some customStatus) :
    (customStatus.Emoji = "" ∧ customStatus.Text = "" →
      (updateUserCustomStatus env (Exec.start c s) r).c.Err =
        some (Err.invalidParam "custom_status") ∧
      (updateUserCustomStatus env (Exec.start c s) r).calls = [] ∧
      (updateUserCustomStatus env (Exec.start c s) r).state = s ∧
      (updateUserCustomStatus env (Exec.start c s) r).w = []) ∧
    (customStatus.Emoji ≠ "" ∨ customStatus.Text ≠ "" →
      env.AreDurationAndExpirationTimeValid customStatus = true →
      (env.App.SessionHasPermissionToUser s (env.RequireUserId c).Session
          (env.RequireUserId c).Params.UserId = false →
        (updateUserCustomStatus env (Exec.start c s) r).c.Err =
          some (Err.permissionError PermissionEditOtherUsers) ∧
        (updateUserCustomStatus env (Exec.start c s) r).calls =
          [Call.SessionHasPermissionToUser (env.RequireUserId c).Session
            (env.RequireUserId c).Params.UserId] ∧
        (updateUserCustomStatus env (Exec.start c s) r).state = s) ∧
      (env.App.SessionHasPermissionToUser s (env.RequireUserId c).Session
          (env.RequireUserId c).Params.UserId = true →
        (updateUserCustomStatus env (Exec.start c s) r).calls =
          [Call.SessionHasPermissionToUser (env.RequireUserId c).Session
            (env.RequireUserId c).Params.UserId,
           Call.SetCustomStatus (env.RequireUserId c).Params.UserId
            (env.PreSave customStatus)] ∧
        (updateUserCustomStatus env (Exec.start c s) r).state =
          (env.App.SetCustomStatus s (env.RequireUserId c).Params.UserId
            (env.PreSave customStatus)).1 ∧
        (updateUserCustomStatus env (Exec.start c s) r).c.Err =
          ((env.App.SetCustomStatus s (env.RequireUserId c).Params.UserId
            (env.PreSave customStatus)).2.map Err.appError) ∧
        ((env.App.SetCustomStatus s (env.RequireUserId c).Params.UserId
            (env.PreSave customStatus)).2 = none →
          (updateUserCustomStatus env (Exec.start c s) r).w = [Written.ok]))) := by
  constructor
  · rintro ⟨he, ht⟩
    simp [updateUserCustomStatus, Exec.start, hid, hon, hbody, he, ht, Context.SetInvalidParam]
  · intro hne hvalid
    have hcond : ¬ (customStatus.Emoji = "" ∧ customStatus.Text = "") := by
      rintro ⟨he, ht⟩
      rcases hne with h | h
      · exact h he
      · exact h ht
    constructor
    · intro hperm
      simp [updateUserCustomStatus, Exec.start, hid, hon, hbody, hcond, hvalid, hperm,
        Context.SetPermissionError]
    · intro hperm
      cases hres : (env.App.SetCustomStatus s (env.RequireUserId c).Params.UserId
          (env.PreSave customStatus)).2 with
      | none =>
        simp [updateUserCustomStatus, Exec.start, hid, hon, hbody, hcond, hvalid, hperm, hres]
      | some err =>
        simp [updateUserCustomStatus, Exec.start, hid, hon, hbody, hcond, hvalid, hperm, hres]

/-- Witness of `updateUserCustomStatus_payload`: the payload with the emoji "😀" and an empty
text is accepted and set. -/
theorem updateUserCustomStatus_payload_witness :
    (updateUserCustomStatus memEnv (Exec.start ctxU1 storeOOO) (customStatusRequest "😀" "")).calls
      = [Call.SessionHasPermissionToUser (memEnv.RequireUserId ctxU1).Session
            (memEnv.RequireUserId ctxU1).Params.UserId,
         Call.SetCustomStatus (memEnv.RequireUserId ctxU1).Params.UserId
            (memEnv.PreSave { Emoji := "😀", Text := "", Duration := "", ExpiresAt := 0 })] ∧
    (updateUserCustomStatus memEnv (Exec.start ctxU1 storeOOO) (customStatusRequest "😀" "")).w
      = [Written.ok] :=
  have h := updateUserCustomStatus_payload memEnv ctxU1 storeOOO (customStatusRequest "😀" "")
    { Emoji := "😀", Text := "", Duration := "", ExpiresAt := 0 }
    (by decide) (by decide) (by decide)
  ⟨((h.2 (by decide) (by decide)).2 (by decide)).1,
    ((h.2 (by decide) (by decide)).2 (by decide)).2.2.2 (by decide)⟩

/-- Claim C10: when `SessionHasPermissionToUser` returns false for the target user, each of the
four mutating handlers ends with an error, makes no mutating call of the application layer and
leaves the state unchanged, for every request; when the checks that come before the permission
decision pass, the error is the permission error for `PermissionEditOtherUsers`. -/
theorem permission_denied_no_mutation {σ : Type} (env : Env σ) (c : Context) (s : σ)
    (r : Request)
    (hdeny : env.App.SessionHasPermissionToUser s (env.RequireUserId c).Session
      (env.RequireUserId c).Params.UserId = false) :
    ((updateUserStatus env (Exec.start c s) r).c.Err ≠ none ∧
      (∀ k ∈ (updateUserStatus env (Exec.start c s) r).calls, k.isMutation = false) ∧
      (updateUserStatus env (Exec.start c s) r).state = s ∧
      (∀ status, (env.RequireUserId c).Err = none → r.StatusFromJson = some status →
        status.UserId = (env.RequireUserId c).Params.UserId →
        (updateUserStatus env (Exec.start c s) r).c.Err =
          some (Err.permissionError PermissionEditOtherUsers))) ∧
    ((updateUserCustomStatus env (Exec.start c s) r).c.Err ≠ none ∧
      (∀ k ∈ (updateUserCustomStatus env (Exec.start c s) r).calls, k.isMutation = false) ∧
      (updateUserCustomStatus env (Exec.start c s) r).state = s ∧
      (∀ customStatus, (env.RequireUserId c).Err = none →
        (env.App.Config s).EnableCustomUserStatuses = true →
        r.CustomStatusFromJson = some customStatus →
        (customStatus.Emoji ≠ "" ∨ customStatus.Text ≠ "") →
        env.AreDurationAndExpirationTimeValid customStatus = true →
        (updateUserCustomStatus env (Exec.start c s) r).c.Err =
          some (Err.permissionError PermissionEditOtherUsers))) ∧
    ((removeUserCustomStatus env (Exec.start c s) r).c.Err ≠ none ∧
      (∀ k ∈ (removeUserCustomStatus env (Exec.start c s) r).calls, k.isMutation = false) ∧
      (removeUserCustomStatus env (Exec.start c s) r).state = s ∧
      ((env.RequireUserId c).Err = none →
        (env.App.Config s).EnableCustomUserStatuses = true →
        (removeUserCustomStatus env (Exec.start c s) r).c.Err =
          some (Err.permissionError PermissionEditOtherUsers))) ∧
    ((removeUserRecentCustomStatus env (Exec.start c s) r).c.Err ≠ none ∧
      (∀ k ∈ (removeUserRecentCustomStatus env (Exec.start c s) r).calls,
        k.isMutation = false) ∧
      (removeUserRecentCustomStatus env (Exec.start c s) r).state = s ∧
      (∀ recentCustomStatus, (env.RequireUserId c).Err = none →
        (env.App.Config s).EnableCustomUserStatuses = true →
        r.CustomStatusFromJson = some recentCustomStatus →
        (removeUserRecentCustomStatus env (Exec.start c s) r).c.Err =
          some (Err.permissionError PermissionEditOtherUsers))) := by
  refine ⟨?_, ?_, ?_, ?_⟩
  · unfold updateUserStatus Exec.start
    by_cases hid : (env.RequireUserId c).Err = none
    · cases hbody : r.StatusFromJson with
      | none => simp [hid, Context.SetInvalidParam]
      | some status =>
        by_cases huser : status.UserId = (env.RequireUserId c).Params.UserId
        · simp [hid, huser, hdeny, Context.SetPermissionError, Call.isMutation]
        · simp [hid, huser, Context.SetInvalidParam]
    · simp [hid]
  · unfold updateUserCustomStatus Exec.start
    by_cases hid : (env.RequireUserId c).Err = none
    · by_cases hon : (env.App.Config s).EnableCustomUserStatuses = true
      · cases hbody : r.CustomStatusFromJson with
        | none => simp [hid, hon, Context.SetInvalidParam]
        | some customStatus =>
          by_cases hcond : (customStatus.Emoji = "" ∧ customStatus.Text = "")
              ∨ ¬ env.AreDurationAndExpirationTimeValid customStatus = true
          · simp only [hid, hon, hcond]
            simp [Context.SetInvalidParam]
            intro h1
            rcases hcond with ⟨he, ht⟩ | hv
            · rcases h1 with h1 | h1
              · exact absurd he h1
              · exact absurd ht h1
            · simpa using hv
          · simp only [hid, hon, hcond]
            simp [hdeny, Context.SetPermissionError, Call.isMutation]
      · simp [hid, hon]
    · simp [hid]
  · unfold removeUserCustomStatus Exec.start
    by_cases hid : (env.RequireUserId c).Err = none
    · by_cases hon : (env.App.Config s).EnableCustomUserStatuses = true
      · simp [hid, hon, hdeny, Context.SetPermissionError, Call.isMutation]
      · simp [hid, hon]
    · simp [hid]
  · unfold removeUserRecentCustomStatus Exec.start
    by_cases hid : (env.RequireUserId c).Err = none
    · by_cases hon : (env.App.Config s).EnableCustomUserStatuses = true
      · cases hbody : r.CustomStatusFromJson with
        | none => simp [hid, hon, Context.SetInvalidParam]
        | some recentCustomStatus =>
          simp [hid, hon, hdeny, Context.SetPermissionError, Call.isMutation]
      · simp [hid, hon]
    · simp [hid]

/-- Witness of `permission_denied_no_mutation`: the permission decision is negative and user `U1`,
out of office, asks for "online"; the handler ends with the permission error and the
auto-responder is left alone. -/
theorem permission_denied_no_mutation_witness :
    (updateUserStatus memEnv (Exec.start ctxU1 storeDenied) (statusRequest "online")).c.Err =
      some (Err.permissionError PermissionEditOtherUsers) ∧
    (∀ k ∈ (updateUserStatus memEnv (Exec.start ctxU1 storeDenied)
      (statusRequest "online")).calls, k.isMutation = false) ∧
    (updateUserStatus memEnv (Exec.start ctxU1 storeDenied) (statusRequest "online")).state =
      storeDenied ∧
    (removeUserCustomStatus memEnv (Exec.start ctxU1 storeDenied)
      (statusRequest "online")).c.Err = some (Err.permissionError PermissionEditOtherUsers) :=
  have h := permission_denied_no_mutation memEnv ctxU1 storeDenied (statusRequest "online")
    (by decide)
  ⟨h.1.2.2.2 (Status.mk U1 "online" 0 0) (by decide) (by decide) (by decide), h.1.2.1, h.1.2.2.1,
    h.2.2.1.2.2.2 (by decide) (by decide)⟩

end Api4
